import Mathlib

/-!
Verification development for the discord-mcp-bot repository.

The definitions below are a shallow embedding of the TypeScript sources:
  - src/memory.ts        (MemoryManager: conversation ledger + memory context)
  - src/http-server.ts   (RateLimiter, auth middleware, request pipeline, routes)
  - src/mcp-server.ts    (tool catalogue, direct-mode dispatcher, proxy-mode dispatcher)
  - src/discord-client.ts (inbound message deduplication)

External collaborators (the discord.js client, the HTTP fetch primitive and the
external memory API) are modelled as oracles: records of functions supplied as
parameters, with every invocation recorded in an explicit effect trace.
-/

namespace DiscordMcp

/-! ## JSON values (JavaScript runtime values crossing the HTTP / tool-call boundary) -/

/-- A JSON-ish JavaScript value: null/undefined are merged into `null`
(the sources only ever distinguish them through truthiness and `??`,
and `JSON.stringify` drops `undefined` object fields before they are sent). -/
inductive Json where
  | null
  | bool (b : Bool)
  | num (n : Int)
  | str (s : String)
  | arr (elems : List Json)
  | obj (fields : List (String × Json))
  deriving Inhabited

/-- Field access `j.k` on a JavaScript object; missing fields read as null/undefined. -/
def Json.get (j : Json) (k : String) : Json :=
  match j with
  | .obj fields =>
      match fields.lookup k with
      | some v => v
      | none => .null
  | _ => .null

/-- JavaScript truthiness of a value. -/
def Json.truthy : Json → Bool
  | .null => false
  | .bool b => b
  | .num n => n != 0
  | .str s => !s.isEmpty
  | .arr _ => true
  | .obj _ => true

/-- Reads a value `as string`: the TypeScript cast performs no conversion, so a
non-string value flows through untyped; we model any such value as `none`. -/
def Json.asStr : Json → Option String
  | .str s => some s
  | _ => none

/-- Reads a value `as number` (no runtime conversion; non-numbers become `none`). -/
def Json.asNum : Json → Option Int
  | .num n => some n
  | _ => none

/-- Reads a value as an array. -/
def Json.asArr : Json → Option (List Json)
  | .arr l => some l
  | _ => none

/-- Reads a value `as string[]` (all elements must be strings). -/
def Json.asStrArr (j : Json) : Option (List String) :=
  match j with
  | .arr l => l.mapM Json.asStr
  | _ => none

/-- Reads a value as `string | null | undefined` (`none` = absent/undefined,
`some none` = JSON null). -/
def Json.asStrOrNull : Json → Option (Option String)
  | .str s => some (some s)
  | .null => some none
  | _ => none

/-- Tool-call arguments: `Record<string, any> | undefined`. -/
abbrev Args := Option (List (String × Json))

/-- Reads `args?.k`. -/
def argGet (args : Args) (k : String) : Json :=
  match args with
  | none => .null
  | some fields =>
      match fields.lookup k with
      | some v => v
      | none => .null

/-- Re-serializes the argument record as the JSON body `args || {}` that proxy
mode forwards over HTTP. -/
def jsonOfArgs (args : Args) : Json :=
  match args with
  | none => .obj []
  | some fields => .obj fields

/-- JavaScript truthiness of an optional string (undefined and the empty string
are falsy). -/
def optTruthy : Option String → Bool
  | none => false
  | some s => !s.isEmpty

/-- JavaScript `x || dflt` on an optional string value. -/
def jsOrStr (o : Option String) (dflt : String) : String :=
  match o with
  | some s => if s.isEmpty then dflt else s
  | none => dflt

/-- Updates the binding of `k` in an insertion-ordered association list,
appending a fresh binding at the end when `k` is absent — the order JavaScript
objects and Maps preserve. -/
def setAssoc {α : Type} (l : List (String × α)) (k : String) (v : α) : List (String × α) :=
  match l with
  | [] => [(k, v)]
  | (k2, v2) :: rest => if k2 = k then (k, v) :: rest else (k2, v2) :: setAssoc rest k v

/-! ## Conversation Ledger (src/memory.ts) -/

/-- `ConversationMessage.role` (src/types.ts). -/
inductive Role where
  | user
  | assistant
  deriving DecidableEq, Repr

/-- `ConversationMessage` (src/types.ts). -/
structure ConversationMessage where
  role : Role
  content : String
  timestamp : String
  author : Option String := none
  userId : Option String := none
  deriving DecidableEq, Repr

/-- `MemoryEntry` (src/types.ts): one per-conversation record. -/
structure MemoryEntry where
  channelId : String
  messages : List ConversationMessage
  lastUpdated : String
  deriving DecidableEq, Repr

/-- `MemoryLedger` (src/types.ts): a JavaScript object keyed by channel id,
modelled as an insertion-ordered association list. -/
abbrev MemoryLedger := List (String × MemoryEntry)

/-- `JournalEntry` (src/memory.ts): an entry of the external memory API. -/
structure JournalEntry where
  id : String
  date : String
  title : Option String := none
  narrative : Option String := none
  carrying_forward : Option String := none
  emotions : Option (List String) := none
  tones : Option (List String) := none
  platforms : Option (List String) := none
  deriving DecidableEq, Repr

/-- The mutable fields of `MemoryManager` (src/memory.ts, lines 16-28). -/
structure MemoryManagerState where
  ledger : MemoryLedger
  pendingNarratives : List String
  memoryApiUrl : String
  cachedCarryingForward : String
  cachedRecentJournal : String
  lastMemoryFetchDate : String
  firstMentionToday : Bool
  deriving DecidableEq, Repr

/-- A freshly constructed `MemoryManager` (constructor, lines 30-39). -/
def MemoryManagerState.init (memoryApiUrl : String) : MemoryManagerState :=
  { ledger := []
    pendingNarratives := []
    memoryApiUrl := memoryApiUrl
    cachedCarryingForward := ""
    cachedRecentJournal := ""
    lastMemoryFetchDate := ""
    firstMentionToday := true }

/-- `MemoryManager.addMessage` (src/memory.ts, lines 138-157); `now` stands for
`new Date().toISOString()` at the time of the call. -/
def MemoryManagerState.addMessage (st : MemoryManagerState) (channelId : String)
    (message : ConversationMessage) (now : String) : MemoryManagerState :=
  let entry :=
    match st.ledger.lookup channelId with
    | some e => e
    | none => { channelId := channelId, messages := [], lastUpdated := now }
  let entry := { entry with messages := entry.messages ++ [message], lastUpdated := now }
  let pending :=
    if !st.memoryApiUrl.isEmpty && message.content.length > 50 then
      let authorPart :=
        match message.author with
        | some a => " (" ++ a ++ ")"
        | none => ""
      let rolePart := match message.role with | .user => "user" | .assistant => "assistant"
      st.pendingNarratives ++ ["[Discord " ++ rolePart ++ authorPart ++ "]: " ++ message.content]
    else st.pendingNarratives
  { st with ledger := setAssoc st.ledger channelId entry, pendingNarratives := pending }

/-- JavaScript `Array.prototype.slice(start)` with a single (possibly negative)
start index. -/
def jsSliceFrom {α : Type} (start : Int) (l : List α) : List α :=
  if start < 0 then l.drop ((l.length + start).toNat)
  else l.drop start.toNat

/-- `MemoryManager.getRecentMessages` (src/memory.ts, lines 159-164): returns
`entry.messages.slice(-limit)`. -/
def getRecentMessages (ledger : MemoryLedger) (channelId : String) (limit : Int) :
    List ConversationMessage :=
  match ledger.lookup channelId with
  | none => []
  | some entry => jsSliceFrom (-limit) entry.messages

/-- The message sequence currently stored for a conversation (empty when the
record does not exist yet). -/
def ledgerMessages (ledger : MemoryLedger) (channelId : String) : List ConversationMessage :=
  match ledger.lookup channelId with
  | none => []
  | some entry => entry.messages

/-- Folds a sequence of `addMessage` calls (message paired with its timestamp)
into the manager state. -/
def addMessages (st : MemoryManagerState) (channelId : String)
    (msgs : List (ConversationMessage × String)) : MemoryManagerState :=
  msgs.foldl (fun s p => s.addMessage channelId p.1 p.2) st

/-! ## External Memory Cache (src/memory.ts, lines 59-136)

The external memory API is an oracle `api : Nat → List JournalEntry`
standing for `readFromApi(limit)`; `today` stands for
the date part of `new Date().toISOString()` at the moment of the call. -/

/-- The lean per-entry summary built in `refreshMemoryContext`
(src/memory.ts, lines 88-98). -/
def journalEntrySummary (e : JournalEntry) : String :=
  let parts : List String := []
  let parts := if !e.date.isEmpty then parts ++ ["**" ++ e.date ++ "**"] else parts
  let parts :=
    match e.title with
    | some t => if !t.isEmpty then parts ++ ["*" ++ t ++ "*"] else parts
    | none => parts
  let parts :=
    match e.emotions with
    | some l => if l.length > 0 then parts ++ ["Emotions: " ++ String.intercalate ", " l] else parts
    | none => parts
  let parts :=
    match e.tones with
    | some l => if l.length > 0 then parts ++ ["Tones: " ++ String.intercalate ", " l] else parts
    | none => parts
  String.intercalate "\n" parts

/-- The condensed recent-journal string (src/memory.ts, lines 87-100). -/
def recentJournalSummary (entries : List JournalEntry) : String :=
  String.intercalate "\n\n" (entries.map journalEntrySummary)

/-- `MemoryManager.refreshMemoryContext` (src/memory.ts, lines 63-107). -/
def MemoryManagerState.refreshMemoryContext (st : MemoryManagerState) (today : String)
    (isFirstOfDay : Bool) (api : Nat → List JournalEntry) : MemoryManagerState :=
  if st.memoryApiUrl.isEmpty then st
  else
    let st :=
      if st.lastMemoryFetchDate ≠ today then
        { st with firstMentionToday := true, lastMemoryFetchDate := today }
      else st
    let st :=
      match api 1 with
      | [] => st
      | e :: _ =>
          match e.carrying_forward with
          | some cf => if !cf.isEmpty then { st with cachedCarryingForward := cf } else st
          | none => st
    if isFirstOfDay || st.firstMentionToday then
      match api 3 with
      | [] => st
      | e :: rest => { st with cachedRecentJournal := recentJournalSummary (e :: rest) }
    else st

/-- `MemoryContext`: the record returned by `getMemoryContext`. -/
structure MemoryContext where
  carryingForward : Option String := none
  recentJournal : Option String := none
  deriving DecidableEq, Repr

/-- `MemoryManager.getMemoryContext` (src/memory.ts, lines 113-136); the source
declares an `isFirstMention` parameter but never reads it, so it is omitted. -/
def MemoryManagerState.getMemoryContext (st : MemoryManagerState) (today : String)
    (api : Nat → List JournalEntry) : MemoryContext × MemoryManagerState :=
  let st :=
    if st.lastMemoryFetchDate ≠ today then st.refreshMemoryContext today true api
    else st
  let cf : Option String :=
    if !st.cachedCarryingForward.isEmpty then some st.cachedCarryingForward else none
  if st.firstMentionToday && !st.cachedRecentJournal.isEmpty then
    ({ carryingForward := cf, recentJournal := some st.cachedRecentJournal },
     { st with firstMentionToday := false })
  else
    ({ carryingForward := cf, recentJournal := none }, st)

/-- Iterates the state change of `getMemoryContext` (`n` further calls, all on
the same simulated day `today`). -/
def iterContextCalls (today : String) (api : Nat → List JournalEntry) :
    Nat → MemoryManagerState → MemoryManagerState
  | 0, st => st
  | n + 1, st => iterContextCalls today api n (st.getMemoryContext today api).2

/-! ## HTTP Gateway: rate limiter (src/http-server.ts, lines 18-58) -/

/-- `RateLimitEntry`. -/
structure RateLimitEntry where
  count : Nat
  resetAt : Nat
  deriving DecidableEq, Repr

/-- The `RateLimiter` class state; `entries` is a JavaScript `Map` keyed by
client ip, modelled as an insertion-ordered association list. Timestamps are
milliseconds (`Date.now()`). -/
structure RateLimiter where
  entries : List (String × RateLimitEntry)
  maxRequests : Nat
  windowMs : Nat
  deriving DecidableEq, Repr

/-- The result triple of `RateLimiter.check`; `remaining` is an `Int` because
the fresh-window branch computes `maxRequests - 1` without clamping. -/
structure RateCheck where
  allowed : Bool
  remaining : Int
  resetAt : Nat
  deriving DecidableEq, Repr

/-- `RateLimiter.check` (src/http-server.ts, lines 35-47); `now` stands for
`Date.now()` at the time of the call. -/
def RateLimiter.check (rl : RateLimiter) (ip : String) (now : Nat) :
    RateCheck × RateLimiter :=
  match rl.entries.lookup ip with
  | none =>
      ({ allowed := true, remaining := (rl.maxRequests : Int) - 1, resetAt := now + rl.windowMs },
       { rl with entries := setAssoc rl.entries ip { count := 1, resetAt := now + rl.windowMs } })
  | some entry =>
      if now > entry.resetAt then
        ({ allowed := true, remaining := (rl.maxRequests : Int) - 1, resetAt := now + rl.windowMs },
         { rl with entries := setAssoc rl.entries ip { count := 1, resetAt := now + rl.windowMs } })
      else
        let count := entry.count + 1
        ({ allowed := count ≤ rl.maxRequests,
           remaining := max 0 ((rl.maxRequests : Int) - count),
           resetAt := entry.resetAt },
         { rl with entries := setAssoc rl.entries ip { count := count, resetAt := entry.resetAt } })

/-- `RateLimiter.cleanup` (src/http-server.ts, lines 50-57). -/
def RateLimiter.cleanup (rl : RateLimiter) (now : Nat) : RateLimiter :=
  { rl with entries := rl.entries.filter (fun p => !(now > p.2.resetAt)) }

/-- Runs a sequence of `check` calls (ip paired with arrival time), collecting
each result. -/
def RateLimiter.runChecks (rl : RateLimiter) : List (String × Nat) → List RateCheck × RateLimiter
  | [] => ([], rl)
  | (ip, t) :: rest =>
      let (r, rl2) := rl.check ip t
      let (rs, rl3) := rl2.runChecks rest
      (r :: rs, rl3)

/-! ## HTTP Gateway: auth middleware (src/http-server.ts, lines 62-96) -/

/-- The byte buffers handed to `crypto.timingSafeEqual` are `Buffer.from(string)`.
We model a buffer as the sequence of code points of the string: an injective
encoding that agrees with UTF-8 on ASCII secrets and induces the same
accept/reject behaviour for every input. -/
def strBytes (s : String) : List Nat :=
  s.data.map Char.toNat

/-- `crypto.timingSafeEqual` on two equal-length buffers: XOR every byte pair
and OR the differences together, inspecting every position regardless of where
the first mismatch lies (no short-circuit). -/
def timingSafeEqual (a b : List Nat) : Bool :=
  (List.zipWith (fun x y => x ^^^ y) a b).foldl (fun acc d => acc ||| d) 0 == 0

/-- The number of byte-compare steps `timingSafeEqual` performs: one per
position, over the whole buffer. This is the structural counterpart of the
constant-time property: the work done is a function of buffer lengths only. -/
def timingSafeEqualSteps (a b : List Nat) : Nat :=
  (List.zipWith (fun x y => x ^^^ y) a b).length

/-- The outcome of the auth middleware for one request: pass the request on, or
answer it with an error status and body. -/
inductive AuthDecision where
  | next
  | reject (status : Nat) (error : String)
  deriving DecidableEq, Repr

/-- JavaScript `String.prototype.startsWith`. -/
def jsStartsWith (s pre : String) : Bool :=
  pre.data.isPrefixOf s.data

/-- The middleware produced by `createAuthMiddleware(apiSecret)`
(src/http-server.ts, lines 62-96); `authHeader` is `req.headers.authorization`.
`header.slice(7)` drops the seven ASCII characters of the literal "Bearer ". -/
def authMiddleware (apiSecret : String) (path : String) (authHeader : Option String) :
    AuthDecision :=
  if path = "/health" then .next
  else
    match authHeader with
    | none => .reject 401 "Missing Authorization header"
    | some header =>
        if !jsStartsWith header "Bearer " then
          .reject 401 "Invalid Authorization format. Use: Bearer <token>"
        else
          let token : String := ⟨header.data.drop 7⟩
          let expected := strBytes apiSecret
          let received := strBytes token
          if expected.length != received.length || !timingSafeEqual expected received then
            .reject 403 "Invalid token"
          else .next

/-! ## HTTP Gateway: request pipeline (src/http-server.ts, lines 100-145) -/

/-- An inbound request as the pipeline sees it: `ip` is
`req.ip || req.socket.remoteAddress || "unknown"`, `now` is `Date.now()`. -/
structure GatewayRequest where
  path : String
  ip : String
  authHeader : Option String
  body : Json
  now : Nat

/-- An HTTP response; headers accumulate in the order the stages set them. -/
structure HttpResponse where
  status : Nat
  body : Json
  headers : List (String × String)

/-- A pipeline stage, for the execution trace. -/
inductive Stage where
  | rateLimit
  | auth
  | route
  deriving DecidableEq, Repr

/-- A JSON error body. -/
def errorBody (msg : String) : Json :=
  .obj [("error", .str msg)]

/-- The full middleware chain of `createHttpServer`
(src/http-server.ts, lines 132-135): rate limiting, then auth, then the routes,
with the two rate-limit headers set on every response before the quota branch.
`route` is the route table reached after both middlewares call `next()`; the
returned trace lists the stages that executed, in order. -/
def handleRequest (route : GatewayRequest → HttpResponse) (apiSecret : String)
    (rl : RateLimiter) (req : GatewayRequest) :
    HttpResponse × RateLimiter × List Stage :=
  let (rc, rl2) := rl.check req.ip req.now
  let rateHeaders :=
    [("X-RateLimit-Remaining", toString rc.remaining),
     ("X-RateLimit-Reset", toString ((rc.resetAt + 999) / 1000))]
  if !rc.allowed then
    ({ status := 429, body := errorBody "Too many requests", headers := rateHeaders },
     rl2, [.rateLimit])
  else
    match authMiddleware apiSecret req.path req.authHeader with
    | .reject status msg =>
        ({ status := status, body := errorBody msg, headers := rateHeaders },
         rl2, [.rateLimit, .auth])
    | .next =>
        let resp := route req
        ({ resp with headers := rateHeaders ++ resp.headers }, rl2, [.rateLimit, .auth, .route])

/-- The `GET /health` route (src/http-server.ts, lines 139-145). -/
def healthRoute (discordReady : Bool) (uptime : Nat) : HttpResponse :=
  { status := 200
    body := .obj
      [("status", .str "ok"),
       ("discord", .str (if discordReady then "connected" else "disconnected")),
       ("uptime", .num uptime)]
    headers := [] }

/-- The gateway limiter constructed in `createHttpServer`
(src/http-server.ts, line 127): 60 requests per 60-second window. -/
def gatewayLimiter : RateLimiter :=
  { entries := [], maxRequests := 60, windowMs := 60000 }

/-- Feeds a list of requests through the pipeline, returning the final
response and limiter state. -/
def runRequests (route : GatewayRequest → HttpResponse) (apiSecret : String) :
    RateLimiter → List GatewayRequest → List (HttpResponse × List Stage) × RateLimiter
  | rl, [] => ([], rl)
  | rl, req :: rest =>
      let (resp, rl2, trace) := handleRequest route apiSecret rl req
      let (rs, rl3) := runRequests route apiSecret rl2 rest
      ((resp, trace) :: rs, rl3)

/-! ## Inbound event deduplication (src/discord-client.ts, lines 68 and 125-138)

`processedMessages` is a JavaScript `Set<string>`; iteration order is insertion
order, so it is modelled as a duplicate-free list. The step below is the
deduplication fragment of the `messageCreate` handler: a message id already in
the set is skipped, otherwise it is recorded (evicting the oldest 50 ids once
the set exceeds 100) and the event is processed — in direct mode the mention/DM
handlers in src/mcp-server.ts then append the message to the Ledger. -/

/-- One inbound event through the deduplication gate: returns whether the event
is processed, and the updated recent-identifier set. -/
def dedupStep (processed : List String) (id : String) : Bool × List String :=
  if id ∈ processed then (false, processed)
  else
    let p2 := processed ++ [id]
    let p3 := if p2.length > 100 then p2.drop 50 else p2
    (true, p3)

/-- Feeds a sequence of message ids through the gate, collecting each verdict. -/
def dedupRun (processed : List String) : List String → List (String × Bool) × List String
  | [] => ([], processed)
  | id :: rest =>
      let (ok, p2) := dedupStep processed id
      let (out, p3) := dedupRun p2 rest
      ((id, ok) :: out, p3)

/-- How many deliveries of `id` in `ids` are processed (not dropped as
duplicates) when starting from the set `processed`. -/
def dedupProcessedCount (processed : List String) (ids : List String) (id : String) : Nat :=
  ((dedupRun processed ids).1.filter (fun p => p.1 = id ∧ p.2 = true)).length

/-! ## Tool results and the Tool Catalogue (src/mcp-server.ts) -/

/-- One content block of an MCP tool result. -/
structure ContentBlock where
  type : String
  text : String
  deriving DecidableEq, Repr

/-- The shape every handler returns:
`{ content: Array<{type, text}>, isError?: boolean }`. -/
structure ToolResult where
  content : List ContentBlock
  isError : Option Bool := none
  deriving DecidableEq, Repr

/-- A plain text result (no `isError` field). -/
def mkText (s : String) : ToolResult :=
  { content := [{ type := "text", text := s }] }

/-- An error result (`isError: true`). -/
def mkErr (s : String) : ToolResult :=
  { content := [{ type := "text", text := s }], isError := some true }

/-- The observable field shape of a result: the `type` tags of its content
array (the text payloads are mode-dependent values, not shape). -/
def resultShape (r : ToolResult) : List String :=
  r.content.map ContentBlock.type

/-- The names of the `TOOLS` catalogue (src/mcp-server.ts, lines 236-871), in
source order; the parameter schemas attached to each name play no role in
dispatching and are elided. -/
def toolCatalogNames : List String :=
  ["discord_read_messages", "discord_send_message", "discord_send_dm",
   "discord_send_file", "discord_check_mentions", "discord_check_dms",
   "discord_get_history", "discord_list_channels", "discord_create_channel",
   "discord_set_channel_topic", "discord_rename_channel", "discord_delete_channel",
   "discord_create_category", "discord_move_channel", "discord_add_reaction",
   "discord_get_reactions", "discord_create_poll", "discord_edit_message",
   "discord_delete_message", "discord_pin_message", "discord_create_thread",
   "discord_create_forum_post", "discord_list_forum_threads",
   "discord_fetch_attachment", "discord_timeout_user", "discord_assign_role",
   "discord_remove_role", "discord_list_members", "discord_get_user_info",
   "discord_list_roles"]

/-- `TOOL_TO_ENDPOINT` (src/mcp-server.ts, lines 877-905). -/
def TOOL_TO_ENDPOINT : List (String × String) :=
  [("discord_read_messages", "/api/read-messages"),
   ("discord_send_message", "/api/send-message"),
   ("discord_send_dm", "/api/send-dm"),
   ("discord_send_file", "/api/send-file"),
   ("discord_get_history", "/api/get-history"),
   ("discord_list_channels", "/api/list-channels"),
   ("discord_create_channel", "/api/create-channel"),
   ("discord_set_channel_topic", "/api/set-channel-topic"),
   ("discord_rename_channel", "/api/rename-channel"),
   ("discord_delete_channel", "/api/delete-channel"),
   ("discord_create_category", "/api/create-category"),
   ("discord_move_channel", "/api/move-channel"),
   ("discord_add_reaction", "/api/add-reaction"),
   ("discord_get_reactions", "/api/get-reactions"),
   ("discord_create_poll", "/api/create-poll"),
   ("discord_edit_message", "/api/edit-message"),
   ("discord_delete_message", "/api/delete-message"),
   ("discord_pin_message", "/api/pin-message"),
   ("discord_create_thread", "/api/create-thread"),
   ("discord_create_forum_post", "/api/create-forum-post"),
   ("discord_list_forum_threads", "/api/list-forum-threads"),
   ("discord_timeout_user", "/api/timeout-user"),
   ("discord_assign_role", "/api/assign-role"),
   ("discord_remove_role", "/api/remove-role"),
   ("discord_list_members", "/api/list-members"),
   ("discord_get_user_info", "/api/get-user-info"),
   ("discord_list_roles", "/api/list-roles")]

/-! ## Discord client values (src/discord-client.ts), as the dispatcher sees them -/

/-- An attachment of a fetched Discord message (only the fields the formatting
code reads). -/
structure MessageAttachment where
  name : String
  url : String
  contentType : Option String := none
  width : Option Nat := none
  height : Option Nat := none
  deriving Repr

/-- The `snapshot.message` sub-object of a forwarded-message snapshot. -/
structure SnapshotMessage where
  content : Option String := none
  attachments : Option (List MessageAttachment) := none
  deriving Repr

/-- A forwarded-message snapshot; `rawKeys` stands for `Object.keys(snapshot)`
on the raw runtime object. -/
structure MessageSnapshot where
  message : Option SnapshotMessage := none
  content : Option String := none
  attachments : Option (List MessageAttachment) := none
  rawKeys : List String := []
  deriving Repr

/-- A fetched Discord message (`createdAtISO` stands for
`msg.createdAt.toISOString()`; collections are listed in iteration order). -/
structure DiscordMessage where
  id : String
  authorTag : String
  authorId : String
  content : String
  createdAtISO : String
  attachments : List MessageAttachment := []
  messageSnapshots : List MessageSnapshot := []
  deriving Repr

/-- A sent message (only `.id` is ever read). -/
structure SentMessage where
  id : String
  deriving DecidableEq, Repr

/-- One channel row of `listServerChannels`. -/
structure ChannelInfo where
  name : String
  id : String
  type : String
  deriving DecidableEq, Repr

/-- One category of `listServerChannels`. -/
structure ChannelCategory where
  name : String
  channels : List ChannelInfo
  deriving DecidableEq, Repr

/-- The result of `listServerChannels`. -/
structure ServerChannels where
  serverName : String
  serverId : String
  categories : List ChannelCategory
  uncategorized : List ChannelInfo
  deriving DecidableEq, Repr

/-- The result of `createChannel` / `createCategory` (only `.name`/`.id` read). -/
structure CreatedChannel where
  name : String
  id : String
  deriving DecidableEq, Repr

/-- One reaction row of `getReactions`. -/
structure Reaction where
  emoji : String
  count : Nat
  deriving DecidableEq, Repr

/-- A poll option after the dispatcher normalizes
`string | { text, emoji? }` into object form. -/
structure PollOption where
  text : Json
  emoji : Json
  deriving Inhabited

/-- The result of `createPoll` (only `.messageId` read). -/
structure PollResult where
  messageId : String
  deriving DecidableEq, Repr

/-- One thread row of `listForumThreads`. -/
structure ThreadInfo where
  name : String
  id : String
  messageCount : Nat
  archived : Bool
  deriving DecidableEq, Repr

/-- The result of `createForumPost`. -/
structure ForumPostResult where
  threadId : String
  messageId : String
  deriving DecidableEq, Repr

/-- The result of `fetchAttachment`. -/
structure FetchAttachmentResult where
  downloaded : List String
  errors : List String
  deriving DecidableEq, Repr

/-- One member row of `listMembers`. -/
structure MemberInfo where
  tag : String
  id : String
  roles : List String
  deriving DecidableEq, Repr

/-- One role row of `listRoles` / `getUserInfo`. -/
structure RoleInfo where
  name : String
  id : String
  color : String
  position : Int
  deriving DecidableEq, Repr

/-- The result of `getUserInfo`. -/
structure UserInfo where
  displayName : String
  tag : String
  id : String
  status : String
  isOnline : Bool
  joinedAt : Option String
  roles : List RoleInfo
  deriving DecidableEq, Repr

/-- A Node `Buffer` as the dispatcher constructs one: from a base64 string or
by reading a file; the byte contents stay abstract to the dispatcher. -/
inductive JsBuffer where
  | fromBase64 (data : String)
  | fromFileRead (path : String)
  deriving DecidableEq, Repr

/-- A `MentionEvent` (src/discord-client.ts, lines 140-150), as stored in the
`pendingMentions` / `pendingDMs` queues; `timestampISO` stands for
`timestamp.toISOString()` and the raw `message` handle is not read by the
check-mentions / check-dms formatting. -/
structure MentionEvent where
  channelId : String
  channelName : String
  guildName : Option String
  authorId : String
  authorTag : String
  content : String
  timestampISO : String
  isDM : Bool
  deriving DecidableEq, Repr

/-- The live discord.js client, as an oracle over the operations the
direct-mode dispatcher invokes. Arguments extracted from the tool-call record
with `as string` casts arrive as `Option String` (`none` = absent/non-string,
i.e. `undefined` flowing through the untyped cast). -/
structure DiscordOracle where
  isReady : Bool
  getRecentMessages : Option String → Int → List DiscordMessage
  sendMessage : Option String → Option String → Option SentMessage
  sendDM : Option String → Option String → Option SentMessage
  readFileOk : String → Bool
  sendFile : Option String → JsBuffer → Option String → Option String → Option SentMessage
  listServerChannels : Option String → Option ServerChannels
  createChannel : Option String → Option String → String → Option String → Option String →
    Option Bool → Option CreatedChannel
  setChannelTopic : Option String → Option String → Bool
  renameChannel : Option String → Option String → Bool
  deleteChannel : Option String → Option String → Bool
  createCategory : Option String → Option String → Option Int → Option CreatedChannel
  moveChannel : Option String → Option (Option String) → Option Int → Bool
  addReaction : Option String → Option String → Option String → Bool
  getReactions : Option String → Option String → Option (List Reaction)
  createPoll : Option String → Option String → List PollOption → Int → Bool → Option PollResult
  editMessage : Option String → Option String → Option String → Bool
  deleteMessage : Option String → Option String → Bool
  pinMessage : Option String → Option String → Bool
  createThread : Option String → Option String → Option String → Option Int → Option String
  createForumPost : Option String → Option String → Option String → Option (List String) →
    Option ForumPostResult
  listForumThreads : Option String → Int → Bool → List ThreadInfo
  fetchAttachment : Option String → Option String → Option String → FetchAttachmentResult
  timeoutUser : Option String → Option String → Option Int → Option String → Bool
  assignRole : Option String → Option String → Option String → Option String → Bool
  removeRole : Option String → Option String → Option String → Option String → Bool
  listMembers : Option String → Int → Option (List MemberInfo)
  getUserInfo : Option String → Option String → Option UserInfo
  listRoles : Option String → Option (List RoleInfo)

/-- One externally-visible call the direct-mode dispatcher makes, with the
exact arguments it passed (`readFile` is the local filesystem read of
`discord_send_file`). -/
inductive DiscordEffect where
  | getRecentMessages (channelId : Option String) (limit : Int)
  | sendMessage (channelId content : Option String)
  | sendDM (userId content : Option String)
  | readFile (path : String)
  | sendFile (channelId : Option String) (buffer : JsBuffer) (name content : Option String)
  | listServerChannels (serverId : Option String)
  | createChannel (serverId name : Option String) (channelType : String)
      (categoryId topic : Option String) (nsfw : Option Bool)
  | setChannelTopic (channelId topic : Option String)
  | renameChannel (channelId newName : Option String)
  | deleteChannel (channelId reason : Option String)
  | createCategory (serverId name : Option String) (position : Option Int)
  | moveChannel (channelId : Option String) (categoryId : Option (Option String))
      (position : Option Int)
  | addReaction (channelId messageId emoji : Option String)
  | getReactions (channelId messageId : Option String)
  | createPoll (channelId question : Option String) (options : List PollOption)
      (durationHours : Int) (allowMultiselect : Bool)
  | editMessage (channelId messageId newContent : Option String)
  | deleteMessage (channelId messageId : Option String)
  | pinMessage (channelId messageId : Option String)
  | createThread (channelId name messageId : Option String) (autoArchiveDuration : Option Int)
  | createForumPost (channelId title content : Option String) (tags : Option (List String))
  | listForumThreads (channelId : Option String) (limit : Int) (includeArchived : Bool)
  | fetchAttachment (channelId messageId filename : Option String)
  | timeoutUser (serverId userId : Option String) (durationMinutes : Option Int)
      (reason : Option String)
  | assignRole (serverId userId roleId reason : Option String)
  | removeRole (serverId userId roleId reason : Option String)
  | listMembers (serverId : Option String) (limit : Int)
  | getUserInfo (serverId userId : Option String)
  | listRoles (serverId : Option String)

/-- The mutable state the direct-mode tool handler touches: the shared
`MemoryManager` and the pending mention / DM queues (src/mcp-server.ts,
lines 209-214). -/
structure DirectState where
  mem : MemoryManagerState
  pendingMentions : List MentionEvent
  pendingDMs : List MentionEvent

/-! ## JavaScript rendering helpers -/

/-- Renders a possibly-undefined string the way a template literal does. -/
def jsStr : Option String → String
  | some s => s
  | none => "undefined"

/-- Renders a possibly-undefined number the way a template literal does. -/
def jsNumStr : Option Int → String
  | some n => toString n
  | none => "undefined"

/-- JavaScript `x || dflt` on a `as number`-extracted value (0 is falsy). -/
def jsOrNum (o : Option Int) (dflt : Int) : Int :=
  match o with
  | some n => if n = 0 then dflt else n
  | none => dflt

/-- Reads a value `as boolean` (no runtime conversion). -/
def Json.asBool : Json → Option Bool
  | .bool b => some b
  | _ => none

/-- JavaScript truthiness of an optional count (`att.width && att.height`:
undefined and 0 are falsy). -/
def natTruthy : Option Nat → Bool
  | none => false
  | some n => n != 0

mutual

/-- How a template literal renders an arbitrary JSON value
(our merged null/undefined renders as "undefined"; arrays comma-join their
elements; objects render as the standard object tag). -/
def jsDisplay : Json → String
  | .null => "undefined"
  | .bool b => if b then "true" else "false"
  | .num n => toString n
  | .str s => s
  | .arr l => String.intercalate "," (jsDisplayList l)
  | .obj _ => "[object Object]"

/-- Renders every element of an array. -/
def jsDisplayList : List Json → List String
  | [] => []
  | j :: rest => jsDisplay j :: jsDisplayList rest

end

/-- Escapes a string for `JSON.stringify` (the escapes the sources can hit). -/
def jsonEscape (s : String) : String :=
  String.join (s.data.map (fun c =>
    if c = '"' then "\\\""
    else if c = '\\' then "\\\\"
    else if c = '\n' then "\\n"
    else if c = '\r' then "\\r"
    else if c = '\t' then "\\t"
    else String.singleton c))

/-- `n` spaces. -/
def spaces (n : Nat) : String :=
  String.join (List.replicate n " ")

mutual

/-- `JSON.stringify(value, null, 2)` at nesting depth `ind`. -/
def jsonStringify (ind : Nat) : Json → String
  | .null => "null"
  | .bool b => if b then "true" else "false"
  | .num n => toString n
  | .str s => "\"" ++ jsonEscape s ++ "\""
  | .arr [] => "[]"
  | .arr (j :: rest) =>
      "[\n" ++ String.intercalate ",\n" (jsonStringifyItems (ind + 2) (j :: rest)) ++
      "\n" ++ spaces ind ++ "]"
  | .obj [] => "\x7b\x7d"
  | .obj (f :: rest) =>
      "\x7b\n" ++ String.intercalate ",\n" (jsonStringifyFields (ind + 2) (f :: rest)) ++
      "\n" ++ spaces ind ++ "\x7d"

/-- Stringifies array items, each on its own indented line. -/
def jsonStringifyItems (ind : Nat) : List Json → List String
  | [] => []
  | j :: rest => (spaces ind ++ jsonStringify ind j) :: jsonStringifyItems ind rest

/-- Stringifies object fields, each on its own indented line. -/
def jsonStringifyFields (ind : Nat) : List (String × Json) → List String
  | [] => []
  | (k, v) :: rest =>
      (spaces ind ++ "\"" ++ jsonEscape k ++ "\": " ++ jsonStringify ind v) ::
      jsonStringifyFields ind rest

end

/-! ## Direct-mode tool dispatch (src/mcp-server.ts, lines 1282-2028) -/

/-- The channel-type icon ternary used when formatting channel lists. -/
def channelIcon (t : String) : String :=
  if t = "voice" then "(voice)"
  else if t = "forum" then "(forum)"
  else if t = "announcement" then "(announcement)"
  else if t = "stage" then "(stage)"
  else "#"

/-- One channel line of the direct-mode `discord_list_channels` formatting. -/
def channelLine (ch : ChannelInfo) : String :=
  "   " ++ channelIcon ch.type ++ " " ++ ch.name ++ " (" ++ ch.id ++ ") [" ++ ch.type ++ "]\n"

/-- The attachment line of the direct-mode `discord_read_messages` formatting
(src/mcp-server.ts, lines 1344-1350). -/
def formatLocalAttachment (att : MessageAttachment) : String :=
  let info := ["  - " ++ att.name]
  let info := if optTruthy att.contentType then info ++ ["type: " ++ jsStr att.contentType] else info
  let info :=
    if natTruthy att.width && natTruthy att.height then
      info ++ [toString (att.width.getD 0) ++ "x" ++ toString (att.height.getD 0)]
    else info
  let info := info ++ ["url: " ++ att.url]
  String.intercalate " | " info

/-- The forwarded-message block of the direct-mode `discord_read_messages`
formatting (src/mcp-server.ts, lines 1320-1337). -/
def formatSnapshot (snapshot : MessageSnapshot) : String :=
  let fwdContent : Option String :=
    match snapshot.message with
    | some m => match m.content with
      | some c => some c
      | none => snapshot.content
    | none => snapshot.content
  let fwdAttachments : Option (List MessageAttachment) :=
    match snapshot.message with
    | some m => match m.attachments with
      | some a => some a
      | none => snapshot.attachments
    | none => snapshot.attachments
  let contentTruthy := optTruthy fwdContent
  let attTruthy := match fwdAttachments with
    | some l => l.length > 0
    | none => false
  let fwdText := "  [Forwarded Message]\n"
  let fwdText := if contentTruthy then fwdText ++ "  Content: " ++ jsStr fwdContent ++ "\n" else fwdText
  let fwdText :=
    if attTruthy then
      fwdText ++ "  Attachments:\n" ++
        String.intercalate "\n"
          ((fwdAttachments.getD []).map (fun att => "    - " ++ att.name ++ " | url: " ++ att.url))
    else fwdText
  if !contentTruthy && !attTruthy then
    fwdText ++ "  [Raw snapshot keys: " ++ String.intercalate ", " snapshot.rawKeys ++ "]"
  else fwdText

/-- One message of the direct-mode `discord_read_messages` formatting
(src/mcp-server.ts, lines 1311-1355). -/
def formatLocalMessage (msg : DiscordMessage) : String :=
  let text := "[" ++ msg.createdAtISO ++ "] (" ++ msg.id ++ ") " ++ msg.authorTag ++ ": " ++ msg.content
  let text :=
    if msg.messageSnapshots.length > 0 then
      text ++ "\n" ++ String.intercalate "\n" (msg.messageSnapshots.map formatSnapshot)
    else text
  if msg.attachments.length > 0 then
    text ++ "\n[Attachments]\n" ++
      String.intercalate "\n" (msg.attachments.map formatLocalAttachment)
  else text

/-- The direct-mode `discord_list_channels` formatting
(src/mcp-server.ts, lines 1518-1543). -/
def formatServerChannels (sc : ServerChannels) : String :=
  let header := "**" ++ sc.serverName ++ "** (" ++ sc.serverId ++ ")\n\n"
  let catBlocks := sc.categories.map (fun cat =>
    "**" ++ cat.name ++ "**\n" ++ String.join (cat.channels.map channelLine) ++ "\n")
  let uncat :=
    if sc.uncategorized.length > 0 then
      "**Uncategorized**\n" ++ String.join (sc.uncategorized.map channelLine)
    else ""
  header ++ String.join catBlocks ++ uncat

/-- The direct-mode `discord_check_mentions` formatting of one pending mention
(src/mcp-server.ts, lines 1455-1460). -/
def formatPendingMention (m : MentionEvent) : String :=
  let location :=
    if optTruthy m.guildName then "#" ++ m.channelName ++ " in " ++ jsStr m.guildName
    else "DM"
  "- " ++ m.authorTag ++ " in " ++ location ++ " at " ++ m.timestampISO ++ ":\n  \"" ++ m.content ++ "\""

/-- The direct-mode `discord_check_dms` formatting of one pending DM
(src/mcp-server.ts, lines 1476-1478). -/
def formatPendingDM (dm : MentionEvent) : String :=
  "- From: " ++ dm.authorTag ++ " (" ++ dm.authorId ++ ")\n  Channel ID: " ++ dm.channelId ++
  "\n  At: " ++ dm.timestampISO ++ "\n  Message: \"" ++ dm.content ++ "\""

/-- The direct-mode `discord_get_history` formatting of one ledger message
(src/mcp-server.ts, lines 1497-1500). -/
def formatHistoryMessage (msg : ConversationMessage) : String :=
  let author :=
    match msg.author with
    | some a => if a.isEmpty then (match msg.role with | .assistant => "Bot" | .user => "User") else a
    | none => match msg.role with | .assistant => "Bot" | .user => "User"
  "[" ++ msg.timestamp ++ "] " ++ author ++ ": " ++ msg.content

/-- Normalizes one poll option (`string | { text, emoji? }`) to object form
(src/mcp-server.ts, lines 1724-1727). -/
def normalizePollOption (opt : Json) : PollOption :=
  match opt with
  | .str s => { text := .str s, emoji := .null }
  | j => { text := j.get "text", emoji := j.get "emoji" }

/-- A JavaScript property key: accessing `obj[x]` coerces `x` to a string, so
an undefined channel id indexes the ledger under the literal key "undefined". -/
def jsKey (o : Option String) : String :=
  match o with
  | some s => s
  | none => "undefined"

/-- The direct-mode `CallToolRequestSchema` handler
(src/mcp-server.ts, lines 1290-2028): executes `name` against the live client
(the oracle `o`), the shared memory manager and the pending queues. Returns
the tool result, the updated state and the trace of external calls made; `now`
stands for `new Date().toISOString()`. -/
def callToolDirect (st : DirectState) (o : DiscordOracle) (name : String) (args : Args)
    (now : String) : ToolResult × DirectState × List DiscordEffect :=
  if !o.isReady && name ≠ "discord_check_mentions" then
    (mkText "Discord client is not ready yet.", st, [])
  else
    match name with
    | "discord_read_messages" =>
        let channelId := (argGet args "channel_id").asStr
        let limit := min (((argGet args "limit").asNum).getD 20) 50
        let messages := o.getRecentMessages channelId limit
        let effs := [DiscordEffect.getRecentMessages channelId limit]
        if messages.length = 0 then
          (mkText "No messages found or channel not accessible.", st, effs)
        else
          (mkText (String.intercalate "\n\n" (messages.map formatLocalMessage)), st, effs)
    | "discord_send_message" =>
        let channelId := (argGet args "channel_id").asStr
        let content := (argGet args "content").asStr
        let sent := o.sendMessage channelId content
        let effs := [DiscordEffect.sendMessage channelId content]
        match sent with
        | some s =>
            let mem2 := st.mem.addMessage (jsKey channelId)
              { role := .assistant, content := jsStr content, timestamp := now } now
            (mkText ("Message sent successfully to channel " ++ jsStr channelId ++
                     "\nMessage ID: " ++ s.id),
             { st with mem := mem2 }, effs)
        | none =>
            (mkText "Failed to send message. Channel may not be accessible.", st, effs)
    | "discord_send_dm" =>
        let userId := (argGet args "user_id").asStr
        let content := (argGet args "content").asStr
        let sent := o.sendDM userId content
        let effs := [DiscordEffect.sendDM userId content]
        match sent with
        | some _ => (mkText ("DM sent successfully to user " ++ jsStr userId), st, effs)
        | none => (mkText "Failed to send DM. User may have DMs disabled.", st, effs)
    | "discord_send_file" =>
        let channelId := (argGet args "channel_id").asStr
        let fileData := (argGet args "file_data").asStr
        let filePath := (argGet args "file_path").asStr
        let fileName := (argGet args "file_name").asStr
        let content := (argGet args "content").asStr
        if optTruthy fileData then
          let buffer := JsBuffer.fromBase64 (jsStr fileData)
          let sent := o.sendFile channelId buffer fileName content
          let effs := [DiscordEffect.sendFile channelId buffer fileName content]
          match sent with
          | some s =>
              (mkText ("File \"" ++ jsStr fileName ++ "\" sent successfully to channel " ++
                       jsStr channelId ++ "\nMessage ID: " ++ s.id), st, effs)
          | none =>
              (mkText "Failed to send file. Channel may not be accessible.", st, effs)
        else if optTruthy filePath then
          let p := jsStr filePath
          if o.readFileOk p then
            let buffer := JsBuffer.fromFileRead p
            let sent := o.sendFile channelId buffer fileName content
            let effs := [DiscordEffect.readFile p,
                         DiscordEffect.sendFile channelId buffer fileName content]
            match sent with
            | some s =>
                (mkText ("File \"" ++ jsStr fileName ++ "\" sent successfully to channel " ++
                         jsStr channelId ++ "\nMessage ID: " ++ s.id), st, effs)
            | none =>
                (mkText "Failed to send file. Channel may not be accessible.", st, effs)
          else
            (mkText ("Failed to read file: " ++ p), st, [DiscordEffect.readFile p])
        else
          (mkText "Either file_data or file_path must be provided.", st, [])
    | "discord_check_mentions" =>
        if st.pendingMentions.length = 0 then
          (mkText "No pending mentions.", st, [])
        else
          let mentions := st.pendingMentions
          let formatted := String.intercalate "\n\n" (mentions.map formatPendingMention)
          (mkText ("Pending mentions:\n\n" ++ formatted),
           { st with pendingMentions := [] }, [])
    | "discord_check_dms" =>
        if st.pendingDMs.length = 0 then
          (mkText "No pending DMs.", st, [])
        else
          let dms := st.pendingDMs
          let formatted := String.intercalate "\n\n" (dms.map formatPendingDM)
          (mkText ("Pending DMs:\n\n" ++ formatted),
           { st with pendingDMs := [] }, [])
    | "discord_get_history" =>
        let channelId := (argGet args "channel_id").asStr
        let limit := ((argGet args "limit").asNum).getD 20
        let messages := getRecentMessages st.mem.ledger (jsKey channelId) limit
        if messages.length = 0 then
          (mkText "No conversation history for this channel.", st, [])
        else
          (mkText (String.intercalate "\n\n" (messages.map formatHistoryMessage)), st, [])
    | "discord_list_channels" =>
        let serverId := (argGet args "server_id").asStr
        let effs := [DiscordEffect.listServerChannels serverId]
        match o.listServerChannels serverId with
        | none => (mkText "Server not found or not accessible.", st, effs)
        | some sc => (mkText (formatServerChannels sc), st, effs)
    | "discord_create_channel" =>
        let serverId := (argGet args "server_id").asStr
        let channelName := (argGet args "name").asStr
        let channelType := jsOrStr ((argGet args "type").asStr) "text"
        let categoryId := (argGet args "category_id").asStr
        let topic := (argGet args "topic").asStr
        let nsfw := (argGet args "nsfw").asBool
        let effs := [DiscordEffect.createChannel serverId channelName channelType categoryId topic nsfw]
        match o.createChannel serverId channelName channelType categoryId topic nsfw with
        | some r => (mkText ("Created channel #" ++ r.name ++ " (" ++ r.id ++ ")"), st, effs)
        | none => (mkText "Failed to create channel. Check permissions and server ID.", st, effs)
    | "discord_set_channel_topic" =>
        let channelId := (argGet args "channel_id").asStr
        let topic := (argGet args "topic").asStr
        let effs := [DiscordEffect.setChannelTopic channelId topic]
        if o.setChannelTopic channelId topic then
          (mkText ("Channel topic updated for " ++ jsStr channelId), st, effs)
        else
          (mkText "Failed to update channel topic. Check permissions or channel type.", st, effs)
    | "discord_rename_channel" =>
        let channelId := (argGet args "channel_id").asStr
        let newName := (argGet args "new_name").asStr
        let effs := [DiscordEffect.renameChannel channelId newName]
        if o.renameChannel channelId newName then
          (mkText ("Channel renamed to #" ++ jsStr newName), st, effs)
        else
          (mkText "Failed to rename channel. Check permissions.", st, effs)
    | "discord_delete_channel" =>
        let channelId := (argGet args "channel_id").asStr
        let reason := (argGet args "reason").asStr
        let effs := [DiscordEffect.deleteChannel channelId reason]
        if o.deleteChannel channelId reason then
          (mkText ("Channel " ++ jsStr channelId ++ " deleted."), st, effs)
        else
          (mkText "Failed to delete channel. Check permissions.", st, effs)
    | "discord_create_category" =>
        let serverId := (argGet args "server_id").asStr
        let categoryName := (argGet args "name").asStr
        let position := (argGet args "position").asNum
        let effs := [DiscordEffect.createCategory serverId categoryName position]
        match o.createCategory serverId categoryName position with
        | some r => (mkText ("Created category " ++ r.name ++ " (" ++ r.id ++ ")"), st, effs)
        | none => (mkText "Failed to create category. Check permissions and server ID.", st, effs)
    | "discord_move_channel" =>
        let channelId := (argGet args "channel_id").asStr
        let categoryId := (argGet args "category_id").asStrOrNull
        let position := (argGet args "position").asNum
        let effs := [DiscordEffect.moveChannel channelId categoryId position]
        if o.moveChannel channelId categoryId position then
          (mkText ("Channel " ++ jsStr channelId ++ " moved successfully."), st, effs)
        else
          (mkText "Failed to move channel. Check permissions.", st, effs)
    | "discord_add_reaction" =>
        let channelId := (argGet args "channel_id").asStr
        let messageId := (argGet args "message_id").asStr
        let emoji := (argGet args "emoji").asStr
        let effs := [DiscordEffect.addReaction channelId messageId emoji]
        if o.addReaction channelId messageId emoji then
          (mkText ("Added reaction " ++ jsStr emoji ++ " to message " ++ jsStr messageId), st, effs)
        else
          (mkText "Failed to add reaction. Check permissions or message ID.", st, effs)
    | "discord_get_reactions" =>
        let channelId := (argGet args "channel_id").asStr
        let messageId := (argGet args "message_id").asStr
        let effs := [DiscordEffect.getReactions channelId messageId]
        match o.getReactions channelId messageId with
        | none => (mkText "Failed to get reactions. Check permissions or message ID.", st, effs)
        | some [] => (mkText "No reactions on this message.", st, effs)
        | some (r :: rest) =>
            let formatted := String.intercalate "\n"
              ((r :: rest).map (fun x => x.emoji ++ ": " ++ toString x.count ++ " reaction(s)"))
            (mkText ("Reactions:\n" ++ formatted), st, effs)
    | "discord_create_poll" =>
        let channelId := (argGet args "channel_id").asStr
        let question := (argGet args "question").asStr
        let rawOptions := (argGet args "options").asArr
        let durationHours := jsOrNum ((argGet args "duration_hours").asNum) 24
        let allowMultiselect := ((argGet args "allow_multiselect").asBool).getD false
        match rawOptions with
        | none => (mkText "Poll requires at least 2 options.", st, [])
        | some l =>
            if l.length < 2 then
              (mkText "Poll requires at least 2 options.", st, [])
            else
              let options := l.map normalizePollOption
              let effs := [DiscordEffect.createPoll channelId question options durationHours allowMultiselect]
              match o.createPoll channelId question options durationHours allowMultiselect with
              | some r => (mkText ("Poll created.\nMessage ID: " ++ r.messageId), st, effs)
              | none => (mkText "Failed to create poll. Check permissions.", st, effs)
    | "discord_edit_message" =>
        let channelId := (argGet args "channel_id").asStr
        let messageId := (argGet args "message_id").asStr
        let newContent := (argGet args "new_content").asStr
        let effs := [DiscordEffect.editMessage channelId messageId newContent]
        if o.editMessage channelId messageId newContent then
          (mkText ("Message " ++ jsStr messageId ++ " edited successfully."), st, effs)
        else
          (mkText "Failed to edit message. Can only edit own messages.", st, effs)
    | "discord_delete_message" =>
        let channelId := (argGet args "channel_id").asStr
        let messageId := (argGet args "message_id").asStr
        let effs := [DiscordEffect.deleteMessage channelId messageId]
        if o.deleteMessage channelId messageId then
          (mkText ("Message " ++ jsStr messageId ++ " deleted."), st, effs)
        else
          (mkText "Failed to delete message. Check permissions.", st, effs)
    | "discord_pin_message" =>
        let channelId := (argGet args "channel_id").asStr
        let messageId := (argGet args "message_id").asStr
        let effs := [DiscordEffect.pinMessage channelId messageId]
        if o.pinMessage channelId messageId then
          (mkText ("Message " ++ jsStr messageId ++ " pinned."), st, effs)
        else
          (mkText "Failed to pin message. Check permissions or pin limit.", st, effs)
    | "discord_create_thread" =>
        let channelId := (argGet args "channel_id").asStr
        let threadName := (argGet args "name").asStr
        let messageId := (argGet args "message_id").asStr
        let autoArchiveDuration := (argGet args "auto_archive_duration").asNum
        let effs := [DiscordEffect.createThread channelId threadName messageId autoArchiveDuration]
        match o.createThread channelId threadName messageId autoArchiveDuration with
        | some threadId =>
            (mkText ("Created thread \"" ++ jsStr threadName ++ "\" (" ++ threadId ++ ")"), st, effs)
        | none => (mkText "Failed to create thread. Check permissions.", st, effs)
    | "discord_create_forum_post" =>
        let channelId := (argGet args "channel_id").asStr
        let title := (argGet args "title").asStr
        let content := (argGet args "content").asStr
        let tags := (argGet args "tags").asStrArr
        let effs := [DiscordEffect.createForumPost channelId title content tags]
        match o.createForumPost channelId title content tags with
        | some r =>
            (mkText ("Forum post created: \"" ++ jsStr title ++ "\"\nThread ID: " ++ r.threadId ++
                     "\nMessage ID: " ++ r.messageId), st, effs)
        | none => (mkText "Failed to create forum post. Check channel ID and permissions.", st, effs)
    | "discord_list_forum_threads" =>
        let channelId := (argGet args "channel_id").asStr
        let limit := jsOrNum ((argGet args "limit").asNum) 20
        let includeArchived := ((argGet args "include_archived").asBool).getD false
        let threads := o.listForumThreads channelId limit includeArchived
        let effs := [DiscordEffect.listForumThreads channelId limit includeArchived]
        if threads.length > 0 then
          let formatted := String.intercalate "\n" (threads.map (fun t =>
            "- \"" ++ t.name ++ "\" (ID: " ++ t.id ++ ") - " ++ toString t.messageCount ++
            " messages" ++ (if t.archived then " [archived]" else "")))
          (mkText ("Found " ++ toString threads.length ++ " threads:\n\n" ++ formatted), st, effs)
        else
          (mkText "No threads found in this forum channel.", st, effs)
    | "discord_fetch_attachment" =>
        let channelId := (argGet args "channel_id").asStr
        let messageId := (argGet args "message_id").asStr
        let filename := (argGet args "filename").asStr
        let result := o.fetchAttachment channelId messageId filename
        let effs := [DiscordEffect.fetchAttachment channelId messageId filename]
        if result.downloaded.length > 0 then
          let fileList := String.intercalate "\n" (result.downloaded.map (fun p => "  - " ++ p))
          let response := "Downloaded " ++ toString result.downloaded.length ++
            " attachment(s):\n" ++ fileList
          let response :=
            if result.errors.length > 0 then
              response ++ "\n\nWarnings:\n" ++
                String.intercalate "\n" (result.errors.map (fun e => "  - " ++ e))
            else response
          (mkText response, st, effs)
        else
          (mkText ("Failed to download attachments:\n" ++
                   String.intercalate "\n" (result.errors.map (fun e => "  - " ++ e))), st, effs)
    | "discord_timeout_user" =>
        let serverId := (argGet args "server_id").asStr
        let userId := (argGet args "user_id").asStr
        let durationMinutes := (argGet args "duration_minutes").asNum
        let reason := (argGet args "reason").asStr
        let effs := [DiscordEffect.timeoutUser serverId userId durationMinutes reason]
        if o.timeoutUser serverId userId durationMinutes reason then
          (mkText ("User " ++ jsStr userId ++ " timed out for " ++ jsNumStr durationMinutes ++
                   " minutes."), st, effs)
        else
          (mkText "Failed to timeout user. Check permissions.", st, effs)
    | "discord_assign_role" =>
        let serverId := (argGet args "server_id").asStr
        let userId := (argGet args "user_id").asStr
        let roleId := (argGet args "role_id").asStr
        let reason := (argGet args "reason").asStr
        let effs := [DiscordEffect.assignRole serverId userId roleId reason]
        if o.assignRole serverId userId roleId reason then
          (mkText ("Role " ++ jsStr roleId ++ " assigned to user " ++ jsStr userId ++ "."), st, effs)
        else
          (mkText "Failed to assign role. Check permissions and role hierarchy.", st, effs)
    | "discord_remove_role" =>
        let serverId := (argGet args "server_id").asStr
        let userId := (argGet args "user_id").asStr
        let roleId := (argGet args "role_id").asStr
        let reason := (argGet args "reason").asStr
        let effs := [DiscordEffect.removeRole serverId userId roleId reason]
        if o.removeRole serverId userId roleId reason then
          (mkText ("Role " ++ jsStr roleId ++ " removed from user " ++ jsStr userId ++ "."), st, effs)
        else
          (mkText "Failed to remove role. Check permissions and role hierarchy.", st, effs)
    | "discord_list_members" =>
        let serverId := (argGet args "server_id").asStr
        let limit := jsOrNum ((argGet args "limit").asNum) 100
        let effs := [DiscordEffect.listMembers serverId limit]
        match o.listMembers serverId limit with
        | none => (mkText "Server not found or not accessible.", st, effs)
        | some members =>
            let formatted := String.intercalate "\n\n" (members.map (fun m =>
              let joined := String.intercalate ", " m.roles
              "- " ++ m.tag ++ " (" ++ m.id ++ ")\n  Roles: " ++
                (if joined.isEmpty then "None" else joined)))
            (mkText ("Members (" ++ toString members.length ++ "):\n\n" ++ formatted), st, effs)
    | "discord_get_user_info" =>
        let serverId := (argGet args "server_id").asStr
        let userId := (argGet args "user_id").asStr
        let effs := [DiscordEffect.getUserInfo serverId userId]
        match o.getUserInfo serverId userId with
        | none => (mkText "User not found or not accessible.", st, effs)
        | some u =>
            let joined := String.intercalate ", " (u.roles.map RoleInfo.name)
            let roles := if joined.isEmpty then "None" else joined
            let formatted := "**" ++ u.displayName ++ "** (" ++ u.tag ++ ")\nID: " ++ u.id ++
              "\nStatus: " ++ u.status ++ " (" ++ (if u.isOnline then "online" else "offline") ++
              ")\nJoined: " ++ jsOrStr u.joinedAt "Unknown" ++ "\nRoles: " ++ roles
            (mkText formatted, st, effs)
    | "discord_list_roles" =>
        let serverId := (argGet args "server_id").asStr
        let effs := [DiscordEffect.listRoles serverId]
        match o.listRoles serverId with
        | none => (mkText "Server not found or not accessible.", st, effs)
        | some roles =>
            let formatted := String.intercalate "\n" (roles.map (fun r =>
              "- " ++ r.name ++ " (" ++ r.id ++ ") [" ++ r.color ++ "] Position: " ++
                toString r.position))
            (mkText ("Roles (" ++ toString roles.length ++ "):\n\n" ++ formatted), st, effs)
    | _ => (mkErr ("Unknown tool: " ++ name), st, [])

/-! ## Proxy-mode tool dispatch (src/mcp-server.ts, lines 171-201 and 908-1270) -/

/-- The attachment line of the proxy `discord_read_messages` formatting
(src/mcp-server.ts, lines 1058-1064). -/
def formatProxyAttachment (att : Json) : String :=
  let info := ["  - " ++ jsDisplay (att.get "name")]
  let info :=
    if (att.get "contentType").truthy then info ++ ["type: " ++ jsDisplay (att.get "contentType")]
    else info
  let info :=
    if (att.get "width").truthy && (att.get "height").truthy then
      info ++ [jsDisplay (att.get "width") ++ "x" ++ jsDisplay (att.get "height")]
    else info
  let info := info ++ ["url: " ++ jsDisplay (att.get "url")]
  String.intercalate " | " info

/-- One message of the proxy `discord_read_messages` formatting
(src/mcp-server.ts, lines 1055-1068). -/
def formatProxyMessage (msg : Json) : String :=
  let text := "[" ++ jsDisplay (msg.get "timestamp") ++ "] (" ++ jsDisplay (msg.get "id") ++
    ") " ++ jsDisplay (msg.get "author") ++ ": " ++ jsDisplay (msg.get "content")
  match (msg.get "attachments").asArr with
  | some (a :: rest) =>
      text ++ "\n[Attachments]\n" ++
        String.intercalate "\n" ((a :: rest).map formatProxyAttachment)
  | _ => text

/-- One channel line of the proxy `discord_list_channels` formatting
(src/mcp-server.ts, lines 1112-1117). -/
def proxyChannelLine (ch : Json) : String :=
  let icon :=
    match (ch.get "type").asStr with
    | some s => channelIcon s
    | none => "#"
  "   " ++ icon ++ " " ++ jsDisplay (ch.get "name") ++ " (" ++ jsDisplay (ch.get "id") ++
    ") [" ++ jsDisplay (ch.get "type") ++ "]\n"

/-- `formatProxyResponse` (src/mcp-server.ts, lines 1045-1270): formats the raw
HTTP API JSON into user-facing text, per tool. -/
def formatProxyResponse (toolName : String) (result : Json) : ToolResult :=
  match toolName with
  | "discord_read_messages" =>
      match (result.get "messages").asArr with
      | some (m :: ms) =>
          mkText (String.intercalate "\n\n" ((m :: ms).map formatProxyMessage))
      | _ => mkText "No messages found or channel not accessible."
  | "discord_send_message" =>
      if (result.get "success").truthy then
        mkText ("Message sent successfully.\nMessage ID: " ++ jsDisplay (result.get "message_id"))
      else mkText "Failed to send message."
  | "discord_send_dm" =>
      if (result.get "success").truthy then
        mkText ("DM sent successfully.\nMessage ID: " ++ jsDisplay (result.get "message_id"))
      else mkText "Failed to send DM."
  | "discord_send_file" =>
      if (result.get "success").truthy then
        mkText ("File sent successfully.\nMessage ID: " ++ jsDisplay (result.get "message_id"))
      else mkText "Failed to send file."
  | "discord_get_history" =>
      match (result.get "messages").asArr with
      | some (m :: ms) =>
          let line := fun (msg : Json) =>
            let author :=
              if (msg.get "author").truthy then jsDisplay (msg.get "author")
              else match (msg.get "role").asStr with
                | some s => if s = "assistant" then "Bot" else "User"
                | none => "User"
            "[" ++ jsDisplay (msg.get "timestamp") ++ "] " ++ author ++ ": " ++
              jsDisplay (msg.get "content")
          mkText (String.intercalate "\n\n" ((m :: ms).map line))
      | _ => mkText "No conversation history for this channel."
  | "discord_list_channels" =>
      if !(result.get "serverName").truthy then mkText "Server not found or not accessible."
      else
        let header := "**" ++ jsDisplay (result.get "serverName") ++ "** (" ++
          jsDisplay (result.get "serverId") ++ ")\n\n"
        let cats :=
          match (result.get "categories").asArr with
          | some l =>
              String.join (l.map (fun cat =>
                "**" ++ jsDisplay (cat.get "name") ++ "**\n" ++
                String.join (((cat.get "channels").asArr.getD []).map proxyChannelLine) ++ "\n"))
          | none => ""
        let uncat :=
          match (result.get "uncategorized").asArr with
          | some (u :: us) =>
              "**Uncategorized**\n" ++
                String.join (((u :: us)).map (fun ch =>
                  "   # " ++ jsDisplay (ch.get "name") ++ " (" ++ jsDisplay (ch.get "id") ++
                    ") [" ++ jsDisplay (ch.get "type") ++ "]\n"))
          | _ => ""
        mkText (header ++ cats ++ uncat)
  | "discord_create_channel" =>
      if (result.get "success").truthy then
        mkText ("Created channel #" ++ jsDisplay (result.get "name") ++ " (" ++
          jsDisplay (result.get "id") ++ ")")
      else mkText "Failed to create channel."
  | "discord_set_channel_topic" =>
      mkText (if (result.get "success").truthy then "Channel topic updated."
              else "Failed to update channel topic.")
  | "discord_rename_channel" =>
      mkText (if (result.get "success").truthy then "Channel renamed."
              else "Failed to rename channel.")
  | "discord_delete_channel" =>
      mkText (if (result.get "success").truthy then "Channel deleted."
              else "Failed to delete channel.")
  | "discord_create_category" =>
      if (result.get "success").truthy then
        mkText ("Created category " ++ jsDisplay (result.get "name") ++ " (" ++
          jsDisplay (result.get "id") ++ ")")
      else mkText "Failed to create category."
  | "discord_move_channel" =>
      mkText (if (result.get "success").truthy then "Channel moved."
              else "Failed to move channel.")
  | "discord_add_reaction" =>
      mkText (if (result.get "success").truthy then "Reaction added."
              else "Failed to add reaction.")
  | "discord_get_reactions" =>
      if !(result.get "reactions").truthy then mkText "Failed to get reactions."
      else
        match (result.get "reactions").asArr with
        | some (r :: rs) =>
            mkText ("Reactions:\n" ++ String.intercalate "\n" ((r :: rs).map (fun x =>
              jsDisplay (x.get "emoji") ++ ": " ++ jsDisplay (x.get "count") ++ " reaction(s)")))
        | _ => mkText "No reactions on this message."
  | "discord_create_poll" =>
      if (result.get "success").truthy then
        mkText ("Poll created.\nMessage ID: " ++ jsDisplay (result.get "message_id"))
      else mkText "Failed to create poll."
  | "discord_edit_message" =>
      mkText (if (result.get "success").truthy then "Message edited."
              else "Failed to edit message.")
  | "discord_delete_message" =>
      mkText (if (result.get "success").truthy then "Message deleted."
              else "Failed to delete message.")
  | "discord_pin_message" =>
      mkText (if (result.get "success").truthy then "Message pinned."
              else "Failed to pin message.")
  | "discord_create_thread" =>
      if (result.get "success").truthy then
        mkText ("Thread created.\nThread ID: " ++ jsDisplay (result.get "thread_id"))
      else mkText "Failed to create thread."
  | "discord_create_forum_post" =>
      if (result.get "success").truthy then
        mkText ("Forum post created.\nThread ID: " ++ jsDisplay (result.get "threadId") ++
          "\nMessage ID: " ++ jsDisplay (result.get "messageId"))
      else mkText "Failed to create forum post."
  | "discord_list_forum_threads" =>
      match (result.get "threads").asArr with
      | some (t :: ts) =>
          let formatted := String.intercalate "\n" ((t :: ts).map (fun th =>
            "- \"" ++ jsDisplay (th.get "name") ++ "\" (ID: " ++ jsDisplay (th.get "id") ++
            ") - " ++ jsDisplay (th.get "messageCount") ++ " messages" ++
            (if (th.get "archived").truthy then " [archived]" else "")))
          mkText ("Found " ++ toString (t :: ts).length ++ " threads:\n\n" ++ formatted)
      | _ => mkText "No threads found in this forum channel."
  | "discord_timeout_user" =>
      mkText (if (result.get "success").truthy then "User timed out."
              else "Failed to timeout user.")
  | "discord_assign_role" =>
      mkText (if (result.get "success").truthy then "Role assigned."
              else "Failed to assign role.")
  | "discord_remove_role" =>
      mkText (if (result.get "success").truthy then "Role removed."
              else "Failed to remove role.")
  | "discord_list_members" =>
      if !(result.get "members").truthy then mkText "Server not found or not accessible."
      else
        let members := (result.get "members").asArr.getD []
        let formatted := String.intercalate "\n\n" (members.map (fun m =>
          let joined := String.intercalate ", " (jsDisplayList ((m.get "roles").asArr.getD []))
          "- " ++ jsDisplay (m.get "tag") ++ " (" ++ jsDisplay (m.get "id") ++ ")\n  Roles: " ++
            (if joined.isEmpty then "None" else joined)))
        mkText ("Members (" ++ toString members.length ++ "):\n\n" ++ formatted)
  | "discord_get_user_info" =>
      if !(result.get "id").truthy then mkText "User not found or not accessible."
      else
        let joined := String.intercalate ", "
          (((result.get "roles").asArr.getD []).map (fun r => jsDisplay (r.get "name")))
        let roles := if joined.isEmpty then "None" else joined
        let formatted := "**" ++ jsDisplay (result.get "displayName") ++ "** (" ++
          jsDisplay (result.get "tag") ++ ")\nID: " ++ jsDisplay (result.get "id") ++
          "\nStatus: " ++ jsDisplay (result.get "status") ++ " (" ++
          (if (result.get "isOnline").truthy then "online" else "offline") ++ ")\nJoined: " ++
          (if (result.get "joinedAt").truthy then jsDisplay (result.get "joinedAt") else "Unknown") ++
          "\nRoles: " ++ roles
        mkText formatted
  | "discord_list_roles" =>
      if !(result.get "roles").truthy then mkText "Server not found or not accessible."
      else
        let roles := (result.get "roles").asArr.getD []
        let formatted := String.intercalate "\n" (roles.map (fun r =>
          "- " ++ jsDisplay (r.get "name") ++ " (" ++ jsDisplay (r.get "id") ++ ") [" ++
          jsDisplay (r.get "color") ++ "] Position: " ++ jsDisplay (r.get "position")))
        mkText ("Roles (" ++ toString roles.length ++ "):\n\n" ++ formatted)
  | _ => mkText (jsonStringify 0 result)

/-- The outcome of one CDN download attempt (`fetch(att.url)`): a 2xx
response, a non-2xx status, or a thrown network error. -/
inductive CdnResult where
  | ok
  | httpError (status : Nat)
  | threw (msg : String)
  deriving DecidableEq, Repr

/-- The remote gateway and environment as proxy mode sees them: `resp`
yields the value `proxyRequest(endpoint, body)` resolves to (the parsed 2xx
JSON, or the `error`-shaped object it builds from a non-2xx or thrown fetch);
`cdn` is the direct CDN fetch of the attachment flow; `cacheDir` the
attachment cache directory. -/
structure ProxyOracle where
  resp : String → Json → Json
  cdn : String → CdnResult
  cacheDir : String

/-- One externally-visible action of the proxy-mode dispatcher. -/
inductive ProxyEffect where
  | post (endpoint : String) (body : Json)
  | cdnFetch (url : String)
  | fsWrite (path : String)

/-- The sanitized attachment file name:
`name.replace(/[^a-zA-Z0-9._-]/g, '_')`. -/
def sanitizeFileName (s : String) : String :=
  String.join (s.data.map (fun c =>
    if c.isAlpha || c.isDigit || c = '.' || c = '_' || c = '-' then String.singleton c
    else "_"))

/-- The download loop body of `handleProxyFetchAttachment`
(src/mcp-server.ts, lines 1002-1023), folded over the attachment list;
accumulates downloaded paths, error strings and effects. -/
def proxyDownloadAll (po : ProxyOracle) (messageId : String) (atts : List Json) :
    List String × List String × List ProxyEffect :=
  atts.foldl
    (fun acc att =>
      let (downloaded, errors, effs) := acc
      let rawName := if (att.get "name").truthy then jsDisplay (att.get "name") else "attachment"
      let safeName := sanitizeFileName rawName
      let localPath := po.cacheDir ++ "/" ++ messageId ++ "_" ++ safeName
      let url := jsDisplay (att.get "url")
      match po.cdn url with
      | .ok =>
          (downloaded ++ [localPath], errors,
           effs ++ [ProxyEffect.cdnFetch url, ProxyEffect.fsWrite localPath])
      | .httpError status =>
          (downloaded,
           errors ++ ["Failed to download " ++ jsDisplay (att.get "name") ++ ": HTTP " ++
                      toString status],
           effs ++ [ProxyEffect.cdnFetch url])
      | .threw msg =>
          (downloaded,
           errors ++ ["Failed to download " ++ jsDisplay (att.get "name") ++ ": " ++ msg],
           effs ++ [ProxyEffect.cdnFetch url]))
    ([], [], [])

/-- `handleProxyFetchAttachment` (src/mcp-server.ts, lines 962-1040): fetch
CDN locators from the gateway, then download each file locally. None of its
returns carry an `isError` flag. -/
def handleProxyFetchAttachment (po : ProxyOracle) (args : Args) :
    ToolResult × List ProxyEffect :=
  let channelId := (argGet args "channel_id").asStr
  let messageId := (argGet args "message_id").asStr
  let filename := (argGet args "filename").asStr
  if !optTruthy channelId || !optTruthy messageId then
    (mkText "channel_id and message_id are required.", [])
  else
    let c := jsStr channelId
    let m := jsStr messageId
    let body := Json.obj
      ([("channel_id", .str c), ("message_id", .str m)] ++
       (match filename with
        | some f => [("filename", Json.str f)]
        | none => []))
    let result := po.resp "/api/get-attachment-urls" body
    let effs := [ProxyEffect.post "/api/get-attachment-urls" body]
    if (result.get "error").truthy then
      (mkText ("Error: " ++ jsDisplay (result.get "error")), effs)
    else
      match (result.get "attachments").asArr with
      | some (a :: atts) =>
          let (downloaded, errors, dlEffs) := proxyDownloadAll po m (a :: atts)
          let effs := effs ++ dlEffs
          if downloaded.length > 0 then
            let fileList := String.intercalate "\n" (downloaded.map (fun p => "  - " ++ p))
            let response := "Downloaded " ++ toString downloaded.length ++
              " attachment(s) locally:\n" ++ fileList
            let response :=
              if errors.length > 0 then
                response ++ "\n\nWarnings:\n" ++
                  String.intercalate "\n" (errors.map (fun e => "  - " ++ e))
              else response
            (mkText response, effs)
          else
            (mkText ("Failed to download attachments:\n" ++
                     String.intercalate "\n" (errors.map (fun e => "  - " ++ e))), effs)
      | _ => (mkText "No attachments found on this message.", effs)

/-- `handleProxyToolCall` (src/mcp-server.ts, lines 915-956): the proxy-mode
branch of the `CallToolRequestSchema` handler. Returns the tool result and the
trace of HTTP/filesystem actions performed. -/
def handleProxyToolCall (po : ProxyOracle) (name : String) (args : Args) :
    ToolResult × List ProxyEffect :=
  if name = "discord_check_mentions" || name = "discord_check_dms" then
    (mkText ("Not available in cloud proxy mode. The cloud bot handles mentions and DMs " ++
             "automatically (auto-responds to owner, DMs notifications for others)."), [])
  else if name = "discord_fetch_attachment" then
    handleProxyFetchAttachment po args
  else
    match TOOL_TO_ENDPOINT.lookup name with
    | none => (mkErr ("Unknown tool: " ++ name), [])
    | some endpoint =>
        let body := jsonOfArgs args
        let result := po.resp endpoint body
        let effs := [ProxyEffect.post endpoint body]
        if (result.get "error").truthy then
          (mkErr ("Error: " ++ jsDisplay (result.get "error")), effs)
        else
          (formatProxyResponse name result, effs)

/-! ## The POST /api/send-message route (src/http-server.ts, lines 181-204) -/

/-- The `/api/send-message` route handler: validate the body, send via the
live client, and append to the Ledger only after a successful send. -/
def apiSendMessageRoute (o : DiscordOracle) (mem : MemoryManagerState) (body : Json)
    (now : String) : HttpResponse × MemoryManagerState × List DiscordEffect :=
  let channel_id := body.get "channel_id"
  let content := body.get "content"
  if !channel_id.truthy || !content.truthy then
    ({ status := 400, body := errorBody "channel_id and content required", headers := [] },
     mem, [])
  else
    let sent := o.sendMessage channel_id.asStr content.asStr
    let effs := [DiscordEffect.sendMessage channel_id.asStr content.asStr]
    match sent with
    | some s =>
        let mem2 := mem.addMessage (jsDisplay channel_id)
          { role := .assistant, content := jsDisplay content, timestamp := now } now
        ({ status := 200,
           body := .obj [("success", .bool true), ("message_id", .str s.id)],
           headers := [] }, mem2, effs)
    | none =>
        ({ status := 500, body := errorBody "Failed to send message", headers := [] },
         mem, effs)

/-! ## Concrete instances (witness / counterexample inputs) -/

/-- A sample ledger message. -/
def exMsg : ConversationMessage :=
  { role := .user, content := "hello", timestamp := "t0" }

/-- A one-channel, one-message ledger. -/
def exLedger : MemoryLedger :=
  [("C1", { channelId := "C1", messages := [exMsg], lastUpdated := "t0" })]

/-- A memory manager holding `exLedger` (no external memory API configured). -/
def exMemState : MemoryManagerState :=
  { MemoryManagerState.init "" with ledger := exLedger }

/-- A live-client oracle whose send operations succeed. -/
def exOracle : DiscordOracle :=
  { isReady := true
    getRecentMessages := fun _ _ => []
    sendMessage := fun _ _ => some { id := "900" }
    sendDM := fun _ _ => some { id := "901" }
    readFileOk := fun _ => true
    sendFile := fun _ _ _ _ => some { id := "902" }
    listServerChannels := fun _ => none
    createChannel := fun _ _ _ _ _ _ => none
    setChannelTopic := fun _ _ => true
    renameChannel := fun _ _ => true
    deleteChannel := fun _ _ => true
    createCategory := fun _ _ _ => none
    moveChannel := fun _ _ _ => true
    addReaction := fun _ _ _ => true
    getReactions := fun _ _ => none
    createPoll := fun _ _ _ _ _ => none
    editMessage := fun _ _ _ => true
    deleteMessage := fun _ _ => true
    pinMessage := fun _ _ => true
    createThread := fun _ _ _ _ => none
    createForumPost := fun _ _ _ _ => none
    listForumThreads := fun _ _ _ => []
    fetchAttachment := fun _ _ _ => { downloaded := [], errors := [] }
    timeoutUser := fun _ _ _ _ => true
    assignRole := fun _ _ _ _ => true
    removeRole := fun _ _ _ _ => true
    listMembers := fun _ _ => none
    getUserInfo := fun _ _ => none
    listRoles := fun _ => none }

/-- A fresh direct-mode state. -/
def exDirectState : DirectState :=
  { mem := MemoryManagerState.init "", pendingMentions := [], pendingDMs := [] }

/-- Arguments for a send-message call to channel C1 with content "hi". -/
def exArgsSend : Args :=
  some [("channel_id", Json.str "C1"), ("content", Json.str "hi")]

/-- A remote-gateway oracle answering every request with a success object. -/
def exProxyOracle : ProxyOracle :=
  { resp := fun _ _ => Json.obj [("success", Json.bool true)]
    cdn := fun _ => .ok
    cacheDir := "/tmp/attachments" }

/-- An external memory API with one journal entry. -/
def exJournalApi : Nat → List JournalEntry :=
  fun _ => [{ id := "1", date := "2024-01-01", title := some "t",
              carrying_forward := some "cf" }]

/-- A delivery sequence that replays id X after 100 fresh ids forced an
eviction. -/
def evictSeq : List String :=
  ["X"] ++ (List.range 100).map (fun i => "m" ++ toString i) ++ ["X"]

/-- An unauthenticated request to the health-check path. -/
def healthReq : GatewayRequest :=
  { path := "/health", ip := "1.2.3.4", authHeader := none, body := .null, now := 0 }

/-- 61 back-to-back health-check requests from one client against the
gateway limiter (60 requests per window). -/
def healthRun : List (HttpResponse × List Stage) × RateLimiter :=
  runRequests (fun _ => healthRoute true 5) "secret" gatewayLimiter
    (List.replicate 61 healthReq)

/-! # Theorems -/

/-! ## Ledger lemmas -/

theorem lookup_setAssoc_self {α : Type} (l : List (String × α)) (k : String) (v : α) :
    (setAssoc l k v).lookup k = some v := by
  induction l with
  | nil => simp [setAssoc, List.lookup]
  | cons hd tl ih =>
      obtain ⟨k2, v2⟩ := hd
      by_cases h : k2 = k
      · subst h
        simp [setAssoc, List.lookup]
      · have hbeq : (k == k2) = false := beq_eq_false_iff_ne.mpr (Ne.symm h)
        simp [setAssoc, h, List.lookup, hbeq, ih]

theorem lookup_setAssoc_ne {α : Type} (l : List (String × α)) (k k2 : String) (v : α)
    (h : k2 ≠ k) : (setAssoc l k v).lookup k2 = l.lookup k2 := by
  have hbeq : (k2 == k) = false := beq_eq_false_iff_ne.mpr h
  induction l with
  | nil => simp [setAssoc, List.lookup, hbeq]
  | cons hd tl ih =>
      obtain ⟨k3, v3⟩ := hd
      by_cases h3 : k3 = k
      · subst h3
        simp [setAssoc, List.lookup, hbeq]
      · simp [setAssoc, h3, List.lookup, ih]

theorem addMessage_ledgerMessages_self (st : MemoryManagerState) (c : String)
    (m : ConversationMessage) (now : String) :
    ledgerMessages (st.addMessage c m now).ledger c = ledgerMessages st.ledger c ++ [m] := by
  unfold MemoryManagerState.addMessage ledgerMessages
  cases h : st.ledger.lookup c <;>
    simp [h, lookup_setAssoc_self]

theorem addMessage_ledgerMessages_ne (st : MemoryManagerState) (c c2 : String)
    (m : ConversationMessage) (now : String) (h : c2 ≠ c) :
    ledgerMessages (st.addMessage c m now).ledger c2 = ledgerMessages st.ledger c2 := by
  unfold MemoryManagerState.addMessage ledgerMessages
  rw [lookup_setAssoc_ne _ _ _ _ h]

theorem addMessages_ledgerMessages_self (st : MemoryManagerState) (c : String)
    (ps : List (ConversationMessage × String)) :
    ledgerMessages (addMessages st c ps).ledger c =
      ledgerMessages st.ledger c ++ ps.map Prod.fst := by
  induction ps generalizing st with
  | nil => simp [addMessages]
  | cons p rest ih =>
      show ledgerMessages (addMessages (st.addMessage c p.1 p.2) c rest).ledger c = _
      rw [ih, addMessage_ledgerMessages_self]
      simp

theorem addMessages_ledgerMessages_ne (st : MemoryManagerState) (c c2 : String)
    (ps : List (ConversationMessage × String)) (h : c2 ≠ c) :
    ledgerMessages (addMessages st c ps).ledger c2 = ledgerMessages st.ledger c2 := by
  induction ps generalizing st with
  | nil => rfl
  | cons p rest ih =>
      show ledgerMessages (addMessages (st.addMessage c p.1 p.2) c rest).ledger c2 = _
      rw [ih, addMessage_ledgerMessages_ne _ _ _ _ _ h]

theorem getRecentMessages_eq_slice (ledger : MemoryLedger) (c : String) (limit : Int) :
    getRecentMessages ledger c limit = jsSliceFrom (-limit) (ledgerMessages ledger c) := by
  unfold getRecentMessages ledgerMessages
  cases ledger.lookup c <;> simp [jsSliceFrom]

theorem jsSliceFrom_neg_length_append {α : Type} (pre post : List α) (h : post ≠ []) :
    jsSliceFrom (-(post.length : Int)) (pre ++ post) = post := by
  have hlen : 0 < post.length := List.length_pos.mpr h
  unfold jsSliceFrom
  rw [if_pos (by omega)]
  have harith : (((pre ++ post).length : Int) + -(post.length : Int)).toNat = pre.length := by
    simp [List.length_append]
  rw [harith, List.drop_left]

/-! ## C3 — ledger append order (corrected) -/

/-- C3 counterexample: the claim quantifies over every sequence of N appends,
including N = 0. On a conversation that already holds one message, zero
appends followed by `recent(id, 0)` returns that existing message — not the
empty appended sequence — because `slice(-0)` is `slice(0)`. -/
theorem recent_zero_appends_counterexample :
    getRecentMessages
        (addMessages exMemState "C1" ([] : List (ConversationMessage × String))).ledger
        "C1" (([] : List (ConversationMessage × String)).map Prod.fst).length = [exMsg] ∧
      ([exMsg] : List ConversationMessage) ≠
        ([] : List (ConversationMessage × String)).map Prod.fst := by
  constructor
  · decide
  · decide

/-- C3 (amended): the Ledger is append-only per conversation — a sequence of
appends extends the stored sequence in order and touches no other
conversation — and for every sequence of N ≥ 1 appends to the same
conversation, `recent(id, N)` returns exactly those N entries in the order
appended. -/
theorem ledger_append_only_recent_ordered (st : MemoryManagerState) (c c2 : String)
    (ps : List (ConversationMessage × String)) (h2 : c2 ≠ c) (hne : ps ≠ []) :
    ledgerMessages (addMessages st c ps).ledger c =
      ledgerMessages st.ledger c ++ ps.map Prod.fst ∧
    ledgerMessages (addMessages st c ps).ledger c2 = ledgerMessages st.ledger c2 ∧
    getRecentMessages (addMessages st c ps).ledger c (ps.length : Int) = ps.map Prod.fst := by
  refine ⟨addMessages_ledgerMessages_self st c ps,
          addMessages_ledgerMessages_ne st c c2 ps h2, ?_⟩
  rw [getRecentMessages_eq_slice, addMessages_ledgerMessages_self]
  have hmap : (ps.map Prod.fst) ≠ [] := by
    intro h
    exact hne (List.map_eq_nil_iff.mp h)
  have hlen : ((ps.map Prod.fst).length : Int) = (ps.length : Int) := by
    simp
  rw [← hlen]
  exact jsSliceFrom_neg_length_append _ _ hmap

/-- C3 witness: two appends to C2 on top of the example state; retrieval
returns them in append order and channel C1 is untouched. -/
theorem ledger_append_only_recent_ordered_witness :
    ("C1" : String) ≠ "C2" ∧
    ledgerMessages
        (addMessages exMemState "C2"
          [({ role := .user, content := "a", timestamp := "t1" }, "t1"),
           ({ role := .assistant, content := "b", timestamp := "t2" }, "t2")]).ledger "C2" =
      ledgerMessages exMemState.ledger "C2" ++
        [{ role := .user, content := "a", timestamp := "t1" },
         { role := .assistant, content := "b", timestamp := "t2" }] ∧
    ledgerMessages
        (addMessages exMemState "C2"
          [({ role := .user, content := "a", timestamp := "t1" }, "t1"),
           ({ role := .assistant, content := "b", timestamp := "t2" }, "t2")]).ledger "C1" =
      ledgerMessages exMemState.ledger "C1" ∧
    getRecentMessages
        (addMessages exMemState "C2"
          [({ role := .user, content := "a", timestamp := "t1" }, "t1"),
           ({ role := .assistant, content := "b", timestamp := "t2" }, "t2")]).ledger "C2"
        (2 : Int) =
      [{ role := .user, content := "a", timestamp := "t1" },
       { role := .assistant, content := "b", timestamp := "t2" }] :=
  ⟨by decide,
   (ledger_append_only_recent_ordered exMemState "C2" "C1" _ (by decide) (by decide)).1,
   (ledger_append_only_recent_ordered exMemState "C2" "C1" _ (by decide) (by decide)).2.1,
   (ledger_append_only_recent_ordered exMemState "C2" "C1" _ (by decide) (by decide)).2.2⟩

/-! ## C10 — retrieval with limit 0 returns the whole history -/

/-- C10: for a conversation whose record holds at least one message,
`getRecentMessages(id, 0)` returns the entire stored sequence (not the empty
one), because `slice(-0)` equals `slice(0)`. -/
theorem getRecentMessages_limit_zero (ledger : MemoryLedger) (id : String) (e : MemoryEntry)
    (h : ledger.lookup id = some e) (hne : e.messages ≠ []) :
    getRecentMessages ledger id 0 = e.messages ∧ getRecentMessages ledger id 0 ≠ [] := by
  have hall : getRecentMessages ledger id 0 = e.messages := by
    unfold getRecentMessages
    rw [h]
    unfold jsSliceFrom
    norm_num
  exact ⟨hall, by rw [hall]; exact hne⟩

/-- C10 witness: the example ledger holds one message in C1, and retrieval
with limit 0 returns it. -/
theorem getRecentMessages_limit_zero_witness :
    getRecentMessages exLedger "C1" 0 = [exMsg] ∧ getRecentMessages exLedger "C1" 0 ≠ [] :=
  getRecentMessages_limit_zero exLedger "C1"
    { channelId := "C1", messages := [exMsg], lastUpdated := "t0" }
    (by decide) (by decide)

/-! ## C2 — local send-message: one send, ledger append only on success -/

/-- C2: in Local mode, `discord_send_message` with channel C and content T
performs exactly one chat-platform send (of T to C, and no other external
call); on success exactly one `role = assistant, content = T` entry is
appended to the Ledger for C (other conversations untouched); on failure the
state — in particular the Ledger — is unchanged. -/
theorem send_message_local (st : DirectState) (o : DiscordOracle) (args : Args)
    (C T now : String)
    (hready : o.isReady = true)
    (hc : argGet args "channel_id" = Json.str C)
    (ht : argGet args "content" = Json.str T) :
    (callToolDirect st o "discord_send_message" args now).2.2 =
      [DiscordEffect.sendMessage (some C) (some T)] ∧
    (∀ s, o.sendMessage (some C) (some T) = some s →
      ledgerMessages (callToolDirect st o "discord_send_message" args now).2.1.mem.ledger C =
        ledgerMessages st.mem.ledger C ++
          [{ role := .assistant, content := T, timestamp := now }] ∧
      ∀ c2, c2 ≠ C →
        ledgerMessages (callToolDirect st o "discord_send_message" args now).2.1.mem.ledger c2 =
          ledgerMessages st.mem.ledger c2) ∧
    (o.sendMessage (some C) (some T) = none →
      (callToolDirect st o "discord_send_message" args now).2.1 = st) := by
  unfold callToolDirect
  rw [hready, hc, ht]
  simp only [Json.asStr]
  cases hsend : o.sendMessage (some C) (some T) with
  | none =>
      refine ⟨by simp, ?_, by simp⟩
      intro s hs
      exact absurd hs (by simp)
  | some s0 =>
      refine ⟨by simp, ?_, ?_⟩
      · intro s hs
        simp only []
        constructor
        · show ledgerMessages
            (st.mem.addMessage (jsKey (some C))
              { role := .assistant, content := jsStr (some T), timestamp := now } now).ledger C = _
          rw [show jsKey (some C) = C from rfl, show jsStr (some T) = T from rfl]
          exact addMessage_ledgerMessages_self st.mem C _ now
        · intro c2 hc2
          show ledgerMessages
            (st.mem.addMessage (jsKey (some C))
              { role := .assistant, content := jsStr (some T), timestamp := now } now).ledger c2 = _
          rw [show jsKey (some C) = C from rfl]
          exact addMessage_ledgerMessages_ne st.mem C c2 _ now hc2
      · intro hnone
        exact absurd hnone (by simp)

/-- C2 witness: sending "hi" to C1 from a fresh state with a succeeding
client records exactly one send effect and exactly one assistant entry. -/
theorem send_message_local_witness :
    exOracle.isReady = true ∧
    argGet exArgsSend "channel_id" = Json.str "C1" ∧
    argGet exArgsSend "content" = Json.str "hi" ∧
    (callToolDirect exDirectState exOracle "discord_send_message" exArgsSend "t1").2.2 =
      [DiscordEffect.sendMessage (some "C1") (some "hi")] ∧
    ledgerMessages
        (callToolDirect exDirectState exOracle "discord_send_message" exArgsSend "t1").2.1.mem.ledger
        "C1" =
      ledgerMessages exDirectState.mem.ledger "C1" ++
        [{ role := .assistant, content := "hi", timestamp := "t1" }] :=
  ⟨rfl, rfl, rfl,
   (send_message_local exDirectState exOracle exArgsSend "C1" "hi" "t1" rfl rfl rfl).1,
   ((send_message_local exDirectState exOracle exArgsSend "C1" "hi" "t1" rfl rfl rfl).2.1
     { id := "900" } rfl).1⟩

/-! ## C4 — recent journal at most once per calendar day -/

theorem getMemoryContext_same_day (st : MemoryManagerState) (d : String)
    (api : Nat → List JournalEntry)
    (h1 : st.lastMemoryFetchDate = d) (h2 : st.firstMentionToday = false) :
    (st.getMemoryContext d api).1.recentJournal = none ∧
    (st.getMemoryContext d api).2 = st := by
  unfold MemoryManagerState.getMemoryContext
  simp [h1, h2]

theorem iterContextCalls_same_day (st : MemoryManagerState) (d : String)
    (api : Nat → List JournalEntry) (n : Nat)
    (h1 : st.lastMemoryFetchDate = d) (h2 : st.firstMentionToday = false) :
    iterContextCalls d api n st = st := by
  induction n with
  | zero => rfl
  | succ k ih =>
      show iterContextCalls d api k (st.getMemoryContext d api).2 = st
      rw [(getMemoryContext_same_day st d api h1 h2).2]
      exact ih

theorem refreshMemoryContext_new_day (st : MemoryManagerState) (d : String)
    (api : Nat → List JournalEntry)
    (hurl : st.memoryApiUrl.isEmpty = false)
    (hd : st.lastMemoryFetchDate ≠ d) (h3 : api 3 ≠ []) :
    (st.refreshMemoryContext d true api).cachedRecentJournal = recentJournalSummary (api 3) ∧
    (st.refreshMemoryContext d true api).firstMentionToday = true ∧
    (st.refreshMemoryContext d true api).lastMemoryFetchDate = d ∧
    (st.refreshMemoryContext d true api).memoryApiUrl = st.memoryApiUrl := by
  unfold MemoryManagerState.refreshMemoryContext
  cases h3v : api 3 with
  | nil => exact absurd h3v h3
  | cons e rest =>
      cases h1 : api 1 with
      | nil => simp [hurl, hd, h1, h3v]
      | cons e1 rest1 =>
          cases hcf : e1.carrying_forward with
          | none => simp [hurl, hd, h1, h3v, hcf]
          | some cf =>
              by_cases hcfe : cf.isEmpty <;>
                simp [hurl, hd, h1, h3v, hcf, hcfe]

theorem getMemoryContext_new_day (st : MemoryManagerState) (d : String)
    (api : Nat → List JournalEntry)
    (hurl : st.memoryApiUrl.isEmpty = false)
    (hd : st.lastMemoryFetchDate ≠ d) (h3 : api 3 ≠ [])
    (hsum : (recentJournalSummary (api 3)).isEmpty = false) :
    (st.getMemoryContext d api).1.recentJournal = some (recentJournalSummary (api 3)) ∧
    (st.getMemoryContext d api).2.lastMemoryFetchDate = d ∧
    (st.getMemoryContext d api).2.firstMentionToday = false ∧
    (st.getMemoryContext d api).2.memoryApiUrl = st.memoryApiUrl := by
  obtain ⟨hj, hfm, hlf, hu⟩ := refreshMemoryContext_new_day st d api hurl hd h3
  unfold MemoryManagerState.getMemoryContext
  rw [if_pos hd, if_pos (by rw [hfm, hj, hsum]; rfl)]
  exact ⟨by rw [hj], by simpa using hlf, rfl, by simpa using hu⟩

/-- C4: with the external memory service configured and returning entries,
the recent-journal summary is delivered exactly on the first
`getMemoryContext` call of a calendar day: the first call on day `d` returns
it populated, each of the `n` following calls on `d` returns it absent, and a
later call on a different day `d2` returns it populated again. -/
theorem recentJournal_once_per_day (api : Nat → List JournalEntry) (url d d2 : String)
    (n : Nat)
    (hurl : url.isEmpty = false) (hd : d ≠ "") (hdd : d2 ≠ d)
    (h3 : api 3 ≠ [])
    (hsum : (recentJournalSummary (api 3)).isEmpty = false) :
    ((MemoryManagerState.init url).getMemoryContext d api).1.recentJournal =
      some (recentJournalSummary (api 3)) ∧
    ((iterContextCalls d api n
        ((MemoryManagerState.init url).getMemoryContext d api).2).getMemoryContext d
          api).1.recentJournal = none ∧
    ((iterContextCalls d api n
        ((MemoryManagerState.init url).getMemoryContext d api).2).getMemoryContext d2
          api).1.recentJournal = some (recentJournalSummary (api 3)) := by
  have hinit_url : (MemoryManagerState.init url).memoryApiUrl.isEmpty = false := hurl
  have hinit_d : (MemoryManagerState.init url).lastMemoryFetchDate ≠ d := by
    show "" ≠ d
    exact fun h => hd h.symm
  obtain ⟨hpop, hlf, hfm, hu⟩ :=
    getMemoryContext_new_day (MemoryManagerState.init url) d api hinit_url hinit_d h3 hsum
  have hiter := iterContextCalls_same_day
    ((MemoryManagerState.init url).getMemoryContext d api).2 d api n hlf hfm
  refine ⟨hpop, ?_, ?_⟩
  · rw [hiter]
    exact (getMemoryContext_same_day _ d api hlf hfm).1
  · rw [hiter]
    have hurl2 : ((MemoryManagerState.init url).getMemoryContext d api).2.memoryApiUrl.isEmpty
        = false := by rw [hu]; exact hurl
    have hd2 : ((MemoryManagerState.init url).getMemoryContext d api).2.lastMemoryFetchDate
        ≠ d2 := by rw [hlf]; exact fun h => hdd h.symm
    exact (getMemoryContext_new_day _ d2 api hurl2 hd2 h3 hsum).1

/-- C4 witness: day 2024-01-01, one further same-day call, then 2024-01-02. -/
theorem recentJournal_once_per_day_witness :
    ("http://memory".isEmpty = false) ∧
    ("2024-01-01" : String) ≠ "" ∧
    ("2024-01-02" : String) ≠ "2024-01-01" ∧
    exJournalApi 3 ≠ [] ∧
    ((recentJournalSummary (exJournalApi 3)).isEmpty = false) ∧
    (((MemoryManagerState.init "http://memory").getMemoryContext "2024-01-01"
        exJournalApi).1.recentJournal =
      some (recentJournalSummary (exJournalApi 3)) ∧
    ((iterContextCalls "2024-01-01" exJournalApi 1
        ((MemoryManagerState.init "http://memory").getMemoryContext "2024-01-01"
          exJournalApi).2).getMemoryContext "2024-01-01" exJournalApi).1.recentJournal = none ∧
    ((iterContextCalls "2024-01-01" exJournalApi 1
        ((MemoryManagerState.init "http://memory").getMemoryContext "2024-01-01"
          exJournalApi).2).getMemoryContext "2024-01-02" exJournalApi).1.recentJournal =
      some (recentJournalSummary (exJournalApi 3))) :=
  ⟨by decide, by decide, by decide, by decide, by decide,
   recentJournal_once_per_day exJournalApi "http://memory" "2024-01-01" "2024-01-02" 1
     (by decide) (by decide) (by decide) (by decide) (by decide)⟩

/-! ## C5 — gateway authentication and constant-time comparison -/

theorem nat_lor_eq_zero (m n : Nat) : (m ||| n) = 0 ↔ m = 0 ∧ n = 0 := by
  constructor
  · intro h
    have hbit : ∀ i, m.testBit i = false ∧ n.testBit i = false := by
      intro i
      have hc := congrArg (fun x => Nat.testBit x i) h
      simpa [Nat.testBit_lor, Nat.zero_testBit] using hc
    exact ⟨Nat.zero_of_testBit_eq_false (fun i => (hbit i).1),
           Nat.zero_of_testBit_eq_false (fun i => (hbit i).2)⟩
  · rintro ⟨rfl, rfl⟩
    rfl

theorem foldl_lor_eq_zero (l : List Nat) (a : Nat) :
    l.foldl (fun acc d => acc ||| d) a = 0 ↔ a = 0 ∧ ∀ x ∈ l, x = 0 := by
  induction l generalizing a with
  | nil => simp
  | cons x xs ih =>
      simp only [List.foldl_cons]
      rw [ih, nat_lor_eq_zero]
      simp only [List.mem_cons]
      constructor
      · rintro ⟨⟨ha, hx⟩, hxs⟩
        exact ⟨ha, fun y hy => hy.elim (fun he => he ▸ hx) (hxs y)⟩
      · rintro ⟨ha, hall⟩
        exact ⟨⟨ha, hall x (Or.inl rfl)⟩, fun y hy => hall y (Or.inr hy)⟩

theorem zipWith_xor_zero_iff (a : List Nat) :
    ∀ b : List Nat, a.length = b.length →
      ((∀ x ∈ List.zipWith (fun x y => x ^^^ y) a b, x = 0) ↔ a = b) := by
  induction a with
  | nil =>
      intro b hlen
      cases b with
      | nil => simp
      | cons y ys => simp at hlen
  | cons x xs ih =>
      intro b hlen
      cases b with
      | nil => simp at hlen
      | cons y ys =>
          have hlen2 : xs.length = ys.length := by simpa using hlen
          simp only [List.zipWith_cons_cons, List.mem_cons, forall_eq_or_imp]
          constructor
          · rintro ⟨hx, hxs⟩
            have hxy : x = y := Nat.xor_eq_zero.mp hx
            have hxsys : xs = ys := (ih ys hlen2).mp hxs
            rw [hxy, hxsys]
          · intro hEq
            injection hEq with h1 h2
            subst h1
            subst h2
            exact ⟨Nat.xor_eq_zero.mpr rfl, (ih xs rfl).mpr rfl⟩

theorem timingSafeEqual_iff (a b : List Nat) (hlen : a.length = b.length) :
    timingSafeEqual a b = true ↔ a = b := by
  unfold timingSafeEqual
  rw [beq_iff_eq, foldl_lor_eq_zero]
  constructor
  · rintro ⟨_, hall⟩
    exact (zipWith_xor_zero_iff a b hlen).mp hall
  · intro h
    exact ⟨rfl, (zipWith_xor_zero_iff a b hlen).mpr h⟩

theorem timingSafeEqualSteps_eq_min (a b : List Nat) :
    timingSafeEqualSteps a b = min a.length b.length := by
  simp [timingSafeEqualSteps]

theorem char_toNat_injective : Function.Injective Char.toNat := by
  intro a b h
  rw [← Char.ofNat_toNat a, h, Char.ofNat_toNat]

theorem string_mk_data (s : String) : String.mk s.data = s := by
  cases s
  rfl

theorem strBytes_inj (s t : String) (h : strBytes s = strBytes t) : s = t := by
  unfold strBytes at h
  have hdata : s.data = t.data := List.map_injective_iff.mpr char_toNat_injective h
  cases s
  cases t
  exact congrArg String.mk hdata

theorem strBytes_length (s : String) : (strBytes s).length = s.length := by
  unfold strBytes
  rw [List.length_map]
  rfl

theorem jsStartsWith_bearer (t : String) :
    jsStartsWith ("Bearer " ++ t) "Bearer " = true := by
  unfold jsStartsWith
  rw [List.isPrefixOf_iff_prefix, String.data_append]
  exact List.prefix_append _ _

theorem bearer_token_data (t : String) :
    (("Bearer " ++ t).data.drop 7) = t.data := by
  rw [String.data_append]
  rw [show (7 : Nat) = ("Bearer ".data).length from rfl, List.drop_left]

theorem authCond_iff (secret tk : String) :
    (((strBytes secret).length != (strBytes tk).length ||
      !timingSafeEqual (strBytes secret) (strBytes tk)) = false) ↔ tk = secret := by
  constructor
  · intro h
    rw [Bool.or_eq_false_iff] at h
    obtain ⟨h1, h2⟩ := h
    have hlen : (strBytes secret).length = (strBytes tk).length := by
      simpa using h1
    have htse : timingSafeEqual (strBytes secret) (strBytes tk) = true := by
      simpa using h2
    exact (strBytes_inj secret tk ((timingSafeEqual_iff _ _ hlen).mp htse)).symm
  · rintro rfl
    have htse : timingSafeEqual (strBytes tk) (strBytes tk) = true :=
      (timingSafeEqual_iff _ _ rfl).mpr rfl
    simp [htse]

theorem authMiddleware_bearer (secret path tk : String) (hp : path ≠ "/health") :
    authMiddleware secret path (some ("Bearer " ++ tk)) =
      if tk = secret then .next else .reject 403 "Invalid token" := by
  have htokval : (⟨("Bearer " ++ tk).data.drop 7⟩ : String) = tk := by
    rw [bearer_token_data, string_mk_data]
  unfold authMiddleware
  rw [if_neg hp]
  dsimp only
  rw [jsStartsWith_bearer tk]
  simp only [Bool.not_true, Bool.false_eq_true, if_false, htokval]
  by_cases he : tk = secret
  · have hc := (authCond_iff secret tk).mpr he
    simp [hc, he, (timingSafeEqual_iff (strBytes secret) (strBytes secret) rfl).mpr rfl]
  · have hc : (((strBytes secret).length != (strBytes tk).length ||
        !timingSafeEqual (strBytes secret) (strBytes tk)) = true) := by
      cases hcase : ((strBytes secret).length != (strBytes tk).length ||
          !timingSafeEqual (strBytes secret) (strBytes tk)) with
      | true => rfl
      | false => exact absurd ((authCond_iff secret tk).mp hcase) he
    simp [hc, he]

/-- C5: on a non-health path, a missing or malformed Authorization header is
answered with 401; a well-formed bearer token that differs from the secret is
answered 403; the routed operation is reached exactly when the token equals
the secret; and the byte-comparison work performed on two same-length tokens
is identical — one step per byte of the secret — regardless of which
character differs. -/
theorem gateway_auth (secret path header token t1 t2 : String)
    (hp : path ≠ "/health") :
    (authMiddleware secret path none = .reject 401 "Missing Authorization header") ∧
    (jsStartsWith header "Bearer " = false →
      authMiddleware secret path (some header) =
        .reject 401 "Invalid Authorization format. Use: Bearer <token>") ∧
    (token ≠ secret →
      authMiddleware secret path (some ("Bearer " ++ token)) = .reject 403 "Invalid token") ∧
    (authMiddleware secret path (some ("Bearer " ++ token)) = .next ↔ token = secret) ∧
    ((strBytes t1).length = (strBytes secret).length →
     (strBytes t2).length = (strBytes secret).length →
       timingSafeEqualSteps (strBytes secret) (strBytes t1) =
         timingSafeEqualSteps (strBytes secret) (strBytes t2) ∧
       timingSafeEqualSteps (strBytes secret) (strBytes t1) = secret.length) := by
  refine ⟨?_, ?_, ?_, ?_, ?_⟩
  · simp [authMiddleware, hp]
  · intro hb
    simp [authMiddleware, hp, hb]
  · intro hne
    rw [authMiddleware_bearer secret path token hp, if_neg hne]
  · rw [authMiddleware_bearer secret path token hp]
    by_cases he : token = secret
    · simp [he]
    · simp [he]
  · intro h1 h2
    rw [timingSafeEqualSteps_eq_min, timingSafeEqualSteps_eq_min, h1, h2]
    simp [strBytes_length]

/-- C5 witness: secret "s3cret", a bad-format header, a token differing only
in the last character, and the matching token, on path /api/send-message. -/
theorem gateway_auth_witness :
    ("/api/send-message" : String) ≠ "/health" ∧
    (authMiddleware "s3cret" "/api/send-message" none =
      .reject 401 "Missing Authorization header") ∧
    (authMiddleware "s3cret" "/api/send-message" (some "Basic abc") =
      .reject 401 "Invalid Authorization format. Use: Bearer <token>") ∧
    (authMiddleware "s3cret" "/api/send-message" (some ("Bearer " ++ "s3creX")) =
      .reject 403 "Invalid token") ∧
    (authMiddleware "s3cret" "/api/send-message" (some ("Bearer " ++ "s3cret")) = .next) ∧
    (timingSafeEqualSteps (strBytes "s3cret") (strBytes "s3creX") =
      timingSafeEqualSteps (strBytes "s3cret") (strBytes "X3cret") ∧
     timingSafeEqualSteps (strBytes "s3cret") (strBytes "s3creX") =
      ("s3cret" : String).length) :=
  ⟨by decide,
   (gateway_auth "s3cret" "/api/send-message" "Basic abc" "s3creX" "s3creX" "X3cret"
     (by decide)).1,
   (gateway_auth "s3cret" "/api/send-message" "Basic abc" "s3creX" "s3creX" "X3cret"
     (by decide)).2.1 (by decide),
   (gateway_auth "s3cret" "/api/send-message" "Basic abc" "s3creX" "s3creX" "X3cret"
     (by decide)).2.2.1 (by decide),
   (gateway_auth "s3cret" "/api/send-message" "Basic abc" "s3cret" "s3creX" "X3cret"
     (by decide)).2.2.2.1.mpr rfl,
   (gateway_auth "s3cret" "/api/send-message" "Basic abc" "s3creX" "s3creX" "X3cret"
     (by decide)).2.2.2.2 (by decide) (by decide)⟩

/-! ## C6 — fixed-window rate limiting -/

theorem runChecks_cons (rl : RateLimiter) (ip : String) (t : Nat)
    (rest : List (String × Nat)) :
    rl.runChecks ((ip, t) :: rest) =
      ((rl.check ip t).1 :: ((rl.check ip t).2.runChecks rest).1,
       ((rl.check ip t).2.runChecks rest).2) := by
  simp [RateLimiter.runChecks]

/-- C6: with a limit of 3 per window, the first three requests of a window are
allowed (remaining 2, 1, 0), the fourth inside the window is rejected with
remaining 0, and a request after the reset time is allowed in a fresh window;
and for every request, both rate-limit headers are set on the response,
allowed or not. -/
theorem rate_limiter_fixed_window (W : Nat) (ip : String) (t1 t2 t3 t4 t5 : Nat)
    (h2 : t2 ≤ t1 + W) (h3 : t3 ≤ t1 + W) (h4 : t4 ≤ t1 + W) (h5 : t1 + W < t5)
    (route : GatewayRequest → HttpResponse) (secret : String) (rl : RateLimiter)
    (req : GatewayRequest) :
    (RateLimiter.runChecks { entries := [], maxRequests := 3, windowMs := W }
        [(ip, t1), (ip, t2), (ip, t3), (ip, t4), (ip, t5)]).1 =
      [{ allowed := true, remaining := 2, resetAt := t1 + W },
       { allowed := true, remaining := 1, resetAt := t1 + W },
       { allowed := true, remaining := 0, resetAt := t1 + W },
       { allowed := false, remaining := 0, resetAt := t1 + W },
       { allowed := true, remaining := 2, resetAt := t5 + W }] ∧
    (handleRequest route secret rl req).1.headers.lookup "X-RateLimit-Remaining" =
      some (toString (rl.check req.ip req.now).1.remaining) ∧
    (handleRequest route secret rl req).1.headers.lookup "X-RateLimit-Reset" =
      some (toString (((rl.check req.ip req.now).1.resetAt + 999) / 1000)) := by
  constructor
  · have c1 : RateLimiter.check { entries := [], maxRequests := 3, windowMs := W } ip t1 =
        ({ allowed := true, remaining := 2, resetAt := t1 + W },
         { entries := [(ip, { count := 1, resetAt := t1 + W })], maxRequests := 3,
           windowMs := W }) := by
      norm_num [RateLimiter.check, List.lookup, setAssoc]
    have c2 : RateLimiter.check
        { entries := [(ip, { count := 1, resetAt := t1 + W })], maxRequests := 3,
          windowMs := W } ip t2 =
        ({ allowed := true, remaining := 1, resetAt := t1 + W },
         { entries := [(ip, { count := 2, resetAt := t1 + W })], maxRequests := 3,
           windowMs := W }) := by
      norm_num [RateLimiter.check, List.lookup, setAssoc, Nat.not_lt.mpr h2]
    have c3 : RateLimiter.check
        { entries := [(ip, { count := 2, resetAt := t1 + W })], maxRequests := 3,
          windowMs := W } ip t3 =
        ({ allowed := true, remaining := 0, resetAt := t1 + W },
         { entries := [(ip, { count := 3, resetAt := t1 + W })], maxRequests := 3,
           windowMs := W }) := by
      norm_num [RateLimiter.check, List.lookup, setAssoc, Nat.not_lt.mpr h3]
    have c4 : RateLimiter.check
        { entries := [(ip, { count := 3, resetAt := t1 + W })], maxRequests := 3,
          windowMs := W } ip t4 =
        ({ allowed := false, remaining := 0, resetAt := t1 + W },
         { entries := [(ip, { count := 4, resetAt := t1 + W })], maxRequests := 3,
           windowMs := W }) := by
      norm_num [RateLimiter.check, List.lookup, setAssoc, Nat.not_lt.mpr h4]
    have c5 : RateLimiter.check
        { entries := [(ip, { count := 4, resetAt := t1 + W })], maxRequests := 3,
          windowMs := W } ip t5 =
        ({ allowed := true, remaining := 2, resetAt := t5 + W },
         { entries := [(ip, { count := 1, resetAt := t5 + W })], maxRequests := 3,
           windowMs := W }) := by
      norm_num [RateLimiter.check, List.lookup, setAssoc, h5]
    rw [runChecks_cons, c1]
    rw [runChecks_cons, c2]
    rw [runChecks_cons, c3]
    rw [runChecks_cons, c4]
    rw [runChecks_cons, c5]
    rfl
  · cases hrc : rl.check req.ip req.now with
    | mk rc rl2 =>
        cases hallowed : rc.allowed with
        | false =>
            simp [handleRequest, hrc, hallowed, List.lookup]
        | true =>
            cases hauth : authMiddleware secret req.path req.authHeader with
            | reject s m => simp [handleRequest, hrc, hallowed, hauth, List.lookup]
            | next => simp [handleRequest, hrc, hallowed, hauth, List.lookup]

/-- C6 witness: limit 3, window 1000ms, requests at 0, 1, 2, 3 and 1001. -/
theorem rate_limiter_fixed_window_witness :
    ((1 : Nat) ≤ 0 + 1000 ∧ (2 : Nat) ≤ 0 + 1000 ∧ (3 : Nat) ≤ 0 + 1000 ∧
      (0 + 1000 : Nat) < 1001) ∧
    (RateLimiter.runChecks { entries := [], maxRequests := 3, windowMs := 1000 }
        [("ip", 0), ("ip", 1), ("ip", 2), ("ip", 3), ("ip", 1001)]).1 =
      [{ allowed := true, remaining := 2, resetAt := 1000 },
       { allowed := true, remaining := 1, resetAt := 1000 },
       { allowed := true, remaining := 0, resetAt := 1000 },
       { allowed := false, remaining := 0, resetAt := 1000 },
       { allowed := true, remaining := 2, resetAt := 2001 }] ∧
    (handleRequest (fun _ => healthRoute true 5) "secret" gatewayLimiter
        healthReq).1.headers.lookup "X-RateLimit-Remaining" =
      some (toString (gatewayLimiter.check healthReq.ip healthReq.now).1.remaining) :=
  ⟨⟨by decide, by decide, by decide, by decide⟩,
   (rate_limiter_fixed_window 1000 "ip" 0 1 2 3 1001 (by decide) (by decide) (by decide)
     (by decide) (fun _ => healthRoute true 5) "secret" gatewayLimiter healthReq).1,
   (rate_limiter_fixed_window 1000 "ip" 0 1 2 3 1001 (by decide) (by decide) (by decide)
     (by decide) (fun _ => healthRoute true 5) "secret" gatewayLimiter healthReq).2.1⟩

/-! ## C7 — pipeline stage order (corrected) -/

/-- C7 counterexample: the health-check path IS rate limited — the 61st
back-to-back /health request from one client in one window is answered 429 by
the rate-limit stage (the first one got 200), so health requests are not
exempt from all three stages. -/
theorem health_rate_limited_counterexample :
    ((healthRun.1.head?).map (fun p => p.1.status) = some 200) ∧
    ((healthRun.1.getLast?).map (fun p => p.1.status) = some 429) ∧
    ((healthRun.1.getLast?).map (fun p => p.2) = some [Stage.rateLimit]) := by
  refine ⟨by decide, by decide, by decide⟩

/-- C7 (amended): every inbound request — the health path included — enters
the rate-limit stage first; a rate-limited request never reaches auth or
routing; an allowed request then passes authentication, whose rejection stops
it before routing; only a request passing both stages is routed. A request to
/health is exempt from authentication (the auth stage always passes it) but
not from rate limiting. -/
theorem pipeline_stage_order (route : GatewayRequest → HttpResponse) (secret : String)
    (rl : RateLimiter) (req : GatewayRequest) (s : Nat) (m : String) :
    ((rl.check req.ip req.now).1.allowed = false →
      (handleRequest route secret rl req).1.status = 429 ∧
      (handleRequest route secret rl req).2.2 = [Stage.rateLimit]) ∧
    ((rl.check req.ip req.now).1.allowed = true →
      authMiddleware secret req.path req.authHeader = .reject s m →
      (handleRequest route secret rl req).1.status = s ∧
      (handleRequest route secret rl req).2.2 = [Stage.rateLimit, Stage.auth]) ∧
    ((rl.check req.ip req.now).1.allowed = true →
      authMiddleware secret req.path req.authHeader = .next →
      (handleRequest route secret rl req).1.status = (route req).status ∧
      (handleRequest route secret rl req).2.2 = [Stage.rateLimit, Stage.auth, Stage.route]) ∧
    (req.path = "/health" → authMiddleware secret req.path req.authHeader = .next) := by
  refine ⟨?_, ?_, ?_, ?_⟩
  · intro hal
    cases hrc : rl.check req.ip req.now with
    | mk rc rl2 =>
        rw [hrc] at hal
        simp only [] at hal
        simp [handleRequest, hrc, hal]
  · intro hal hauth
    cases hrc : rl.check req.ip req.now with
    | mk rc rl2 =>
        rw [hrc] at hal
        simp only [] at hal
        simp [handleRequest, hrc, hal, hauth]
  · intro hal hauth
    cases hrc : rl.check req.ip req.now with
    | mk rc rl2 =>
        rw [hrc] at hal
        simp only [] at hal
        simp [handleRequest, hrc, hal, hauth]
  · intro hh
    unfold authMiddleware
    rw [if_pos hh]

/-- C7 amended-theorem witness: an over-quota request is stopped at the
rate-limit stage; an in-quota unauthenticated /health request is routed. -/
theorem pipeline_stage_order_witness :
    ((gatewayLimiter.check healthReq.ip healthReq.now).1.allowed = true) ∧
    (authMiddleware "secret" healthReq.path healthReq.authHeader = .next) ∧
    (handleRequest (fun _ => healthRoute true 5) "secret" gatewayLimiter healthReq).1.status =
      (healthRoute true 5).status ∧
    (handleRequest (fun _ => healthRoute true 5) "secret" gatewayLimiter healthReq).2.2 =
      [Stage.rateLimit, Stage.auth, Stage.route] ∧
    (healthReq.path = "/health" →
      authMiddleware "secret" healthReq.path healthReq.authHeader = .next) := by
  have h := pipeline_stage_order (fun _ => healthRoute true 5) "secret" gatewayLimiter
    healthReq 0 ""
  refine ⟨by decide, ?_, ?_, ?_, h.2.2.2⟩
  · exact h.2.2.2 (by decide)
  · exact (h.2.2.1 (by decide) (h.2.2.2 (by decide))).1
  · exact (h.2.2.1 (by decide) (h.2.2.2 (by decide))).2

/-! ## C8 — proxy mode special-cases the pending-event tools -/

/-- C8: in Remote (proxy) mode, the check-pending-mentions and
check-pending-DMs tools return one fixed informational ToolResult and perform
no HTTP request, CDN fetch or file write — for every argument value and every
oracle. -/
theorem proxy_pending_tools_fixed (po : ProxyOracle) (args : Args) (name : String)
    (h : name = "discord_check_mentions" ∨ name = "discord_check_dms") :
    handleProxyToolCall po name args =
      (mkText ("Not available in cloud proxy mode. The cloud bot handles mentions and DMs " ++
               "automatically (auto-responds to owner, DMs notifications for others)."), []) := by
  rcases h with rfl | rfl <;> rfl

/-- C8 witness: the check-mentions tool against a concrete oracle with no
arguments. -/
theorem proxy_pending_tools_fixed_witness :
    (("discord_check_mentions" : String) = "discord_check_mentions" ∨
      ("discord_check_mentions" : String) = "discord_check_dms") ∧
    handleProxyToolCall exProxyOracle "discord_check_mentions" none =
      (mkText ("Not available in cloud proxy mode. The cloud bot handles mentions and DMs " ++
               "automatically (auto-responds to owner, DMs notifications for others)."), []) :=
  ⟨Or.inl rfl,
   proxy_pending_tools_fixed exProxyOracle none "discord_check_mentions" (Or.inl rfl)⟩

/-! ## C9 — inbound deduplication (corrected) -/

set_option maxRecDepth 10000 in
/-- C9 counterexample: delivering id X, then 100 fresh ids (which pushes the
set past 100 and evicts the oldest 50, X among them), then X again, processes
X twice — so a duplicate delivery is not always absorbed. -/
theorem dedup_replay_after_eviction_counterexample :
    dedupProcessedCount [] evictSeq "X" = 2 ∧ (2 : Nat) ≠ 1 := by
  exact ⟨by decide, by decide⟩

/-- C9 (amended): a duplicate delivered while its identifier is still in the
recent-identifier set is dropped (in particular an immediate replay after any
delivery), the set size never exceeds 100, and a new identifier that pushes
the size past 100 evicts exactly the oldest 50; a duplicate arriving after
its identifier was evicted is processed again. -/
theorem dedup_bounded_evicts_oldest (s : List String) (id : String)
    (hbound : s.length ≤ 100) :
    (id ∈ (dedupStep s id).2) ∧
    (dedupStep (dedupStep s id).2 id = (false, (dedupStep s id).2)) ∧
    (id ∈ s → dedupStep s id = (false, s)) ∧
    ((dedupStep s id).2.length ≤ 100) ∧
    (id ∉ s → s.length + 1 > 100 → (dedupStep s id).2 = (s ++ [id]).drop 50) := by
  have hstep : ∀ s2 : List String, id ∈ s2 → dedupStep s2 id = (false, s2) := by
    intro s2 h
    simp [dedupStep, h]
  by_cases hmem : id ∈ s
  · rw [hstep s hmem]
    refine ⟨hmem, ?_, fun _ => rfl, hbound, fun hn _ => absurd hmem hn⟩
    show dedupStep s id = ((false : Bool), s)
    exact hstep s hmem
  · have hin : id ∈ (dedupStep s id).2 := by
      unfold dedupStep
      rw [if_neg hmem]
      dsimp only
      split
      · next hlen =>
          have h50 : 50 ≤ s.length := by
            simp [List.length_append] at hlen
            omega
          rw [List.drop_append_of_le_length h50]
          simp
      · simp
    refine ⟨hin, hstep _ hin, fun h => absurd h hmem, ?_, ?_⟩
    · unfold dedupStep
      rw [if_neg hmem]
      dsimp only
      split
      · next hlen =>
          rw [List.length_drop]
          simp [List.length_append]
          omega
      · next hlen =>
          simp [List.length_append] at hlen ⊢
          omega
    · intro _ hgt
      unfold dedupStep
      rw [if_neg hmem]
      dsimp only
      rw [if_pos (by simp [List.length_append]; omega)]

/-- C9 amended-theorem witness: starting from the empty set with id X. -/
theorem dedup_bounded_evicts_oldest_witness :
    (([] : List String).length ≤ 100) ∧
    (("X" : String) ∈ (dedupStep [] "X").2) ∧
    (dedupStep (dedupStep [] "X").2 "X" = (false, (dedupStep [] "X").2)) ∧
    (("X" : String) ∈ ([] : List String) → dedupStep [] "X" = (false, [])) ∧
    ((dedupStep [] "X").2.length ≤ 100) ∧
    (("X" : String) ∉ ([] : List String) → ([] : List String).length + 1 > 100 →
      (dedupStep [] "X").2 = (([] : List String) ++ ["X"]).drop 50) :=
  ⟨by decide,
   (dedup_bounded_evicts_oldest [] "X" (by decide)).1,
   (dedup_bounded_evicts_oldest [] "X" (by decide)).2.1,
   (dedup_bounded_evicts_oldest [] "X" (by decide)).2.2.1,
   (dedup_bounded_evicts_oldest [] "X" (by decide)).2.2.2.1,
   (dedup_bounded_evicts_oldest [] "X" (by decide)).2.2.2.2⟩

/-! ## C1 — uniform result shape across Local and Remote mode -/

theorem resultShape_mkText (s : String) : resultShape (mkText s) = ["text"] := rfl

theorem resultShape_mkErr (s : String) : resultShape (mkErr s) = ["text"] := rfl

theorem callToolDirect_shape (st : DirectState) (o : DiscordOracle) (name : String)
    (args : Args) (now : String) :
    resultShape (callToolDirect st o name args now).1 = ["text"] := by
  unfold callToolDirect
  repeat' (first | split | dsimp only)
  all_goals first
    | exact resultShape_mkText _
    | exact resultShape_mkErr _

theorem formatProxyResponse_shape (name : String) (result : Json) :
    resultShape (formatProxyResponse name result) = ["text"] := by
  unfold formatProxyResponse
  repeat' (first | split | dsimp only)
  all_goals first
    | exact resultShape_mkText _
    | exact resultShape_mkErr _

theorem handleProxyFetchAttachment_shape (po : ProxyOracle) (args : Args) :
    resultShape (handleProxyFetchAttachment po args).1 = ["text"] := by
  unfold handleProxyFetchAttachment
  repeat' (first | split | dsimp only)
  all_goals first
    | exact resultShape_mkText _
    | exact resultShape_mkErr _

theorem handleProxyToolCall_shape (po : ProxyOracle) (name : String) (args : Args) :
    resultShape (handleProxyToolCall po name args).1 = ["text"] := by
  unfold handleProxyToolCall
  repeat' (first | split | dsimp only)
  all_goals first
    | exact resultShape_mkText _
    | exact resultShape_mkErr _
    | exact handleProxyFetchAttachment_shape po args
    | exact formatProxyResponse_shape name _

/-- C1: for every tool name in the Catalogue, dispatching it returns a
ToolResult of the same field shape in Local (direct) and Remote (proxy) mode:
a content array holding text blocks (exactly one, of type "text"), plus the
optional isError boolean of the ToolResult shape — for all arguments, states
and oracle behaviours, so shape equivalence holds without value equality. -/
theorem dispatch_shape_uniform (name : String) (hmem : name ∈ toolCatalogNames)
    (st : DirectState) (o : DiscordOracle) (args : Args) (now : String)
    (po : ProxyOracle) :
    resultShape (callToolDirect st o name args now).1 = ["text"] ∧
    resultShape (handleProxyToolCall po name args).1 = ["text"] ∧
    resultShape (callToolDirect st o name args now).1 =
      resultShape (handleProxyToolCall po name args).1 := by
  refine ⟨callToolDirect_shape st o name args now, handleProxyToolCall_shape po name args, ?_⟩
  rw [callToolDirect_shape st o name args now, handleProxyToolCall_shape po name args]

/-- C1 witness: the send-message tool dispatched in both modes at concrete
inputs. -/
theorem dispatch_shape_uniform_witness :
    (("discord_send_message" : String) ∈ toolCatalogNames) ∧
    resultShape (callToolDirect exDirectState exOracle "discord_send_message" exArgsSend
        "t1").1 = ["text"] ∧
    resultShape (handleProxyToolCall exProxyOracle "discord_send_message" exArgsSend).1 =
      ["text"] ∧
    resultShape (callToolDirect exDirectState exOracle "discord_send_message" exArgsSend
        "t1").1 =
      resultShape (handleProxyToolCall exProxyOracle "discord_send_message" exArgsSend).1 :=
  ⟨by decide,
   (dispatch_shape_uniform "discord_send_message" (by decide) exDirectState exOracle
     exArgsSend "t1" exProxyOracle).1,
   (dispatch_shape_uniform "discord_send_message" (by decide) exDirectState exOracle
     exArgsSend "t1" exProxyOracle).2.1,
   (dispatch_shape_uniform "discord_send_message" (by decide) exDirectState exOracle
     exArgsSend "t1" exProxyOracle).2.2⟩

end DiscordMcp
